import Mathlib

/-!
Verification development for the nomad-proxy repository
(`src/nomad-proxy.py`, a minimal asyncio single-target web proxy).

The Python source is shallowly embedded: pure helpers become Lean
functions on `String` / `List Nat` (bytes); the stateful request
handlers become functions from the request data plus explicit network
oracles (modelling the upstream server and the client socket) to the
list of write events performed on the client connection.
-/

namespace NomadProxy

/-! ## Generic small helpers (Python string / int semantics) -/

def crlf : String := "\r\n"

/-- Whitespace class used by Python `str.strip()` / `str.split()`
    (ASCII portion; the tokens handled by the proxy are ASCII). -/
def isPySpace (c : Char) : Bool :=
  c = ' ' ∨ c = '\t' ∨ c = '\n' ∨ c = '\r' ∨ c = Char.ofNat 11 ∨ c = Char.ofNat 12

def pyStrip (s : String) : String :=
  String.mk (((s.data.dropWhile isPySpace).reverse.dropWhile isPySpace).reverse)

def pyLStripChar (s : String) (c : Char) : String :=
  String.mk (s.data.dropWhile (fun d => d == c))

/-- `str.split()` with no argument: split on runs of whitespace, no empties. -/
def pySplit (s : String) : List String :=
  let step := fun (acc : List String × List Char) c =>
    if isPySpace c then
      match acc.2 with
      | [] => (acc.1, [])
      | cur => (acc.1 ++ [String.mk cur.reverse], [])
    else (acc.1, c :: acc.2)
  let r := s.data.foldl step ([], [])
  match r.2 with
  | [] => r.1
  | cur => r.1 ++ [String.mk cur.reverse]


/-- `s.split(c)` (single-character separator, keeps empty fields). -/
def splitOnCharAux (c : Char) : List Char → List Char → List String
  | [], cur => [String.mk cur.reverse]
  | d :: rest, cur =>
    if d == c then String.mk cur.reverse :: splitOnCharAux c rest []
    else splitOnCharAux c rest (d :: cur)

def splitOnChar (s : String) (c : Char) : List String :=
  splitOnCharAux c s.data []

/-- `s.replace(c, r)` for a one-character pattern. -/
def replaceChar (s : String) (c : Char) (r : String) : String :=
  String.mk (s.data.foldr (fun d acc => if d == c then r.data ++ acc else d :: acc) [])

/-- `sep.join(parts)`. -/
def joinWith (sep : String) : List String → String
  | [] => ""
  | [x] => x
  | x :: rest => x ++ sep ++ joinWith sep rest

def concatAll (l : List String) : String :=
  l.foldr (fun a b => a ++ b) ""

def strStartsWith (s pre : String) : Bool :=
  pre.data.isPrefixOf s.data

def strEndsWith (s suf : String) : Bool :=
  suf.data.isSuffixOf s.data

def strTake (s : String) (n : Nat) : String :=
  String.mk (s.data.take n)

def pyUpperChar (c : Char) : Char :=
  if 'a' ≤ c ∧ c ≤ 'z' then Char.ofNat (c.toNat - 32) else c

def pyLowerChar (c : Char) : Char :=
  if 'A' ≤ c ∧ c ≤ 'Z' then Char.ofNat (c.toNat + 32) else c

def pyUpper (s : String) : String := String.mk (s.data.map pyUpperChar)

def pyLower (s : String) : String := String.mk (s.data.map pyLowerChar)

/-- `s.split(c, 1)`: the part before the first `c`, and (when `c` occurs)
    the part after it. -/
def splitOnceChar (s : String) (c : Char) : String × Option String :=
  let pre := s.data.takeWhile (fun d => d ≠ c)
  if pre.length = s.data.length then (s, none)
  else (String.mk pre, some (String.mk (s.data.drop (pre.length + 1))))

def strContainsChar (s : String) (c : Char) : Bool :=
  s.data.any (fun d => d == c)

/-- Value of a hex digit character, if it is one. -/
def hexVal (c : Char) : Option Nat :=
  if '0' ≤ c ∧ c ≤ '9' then some (c.toNat - 48)
  else if 'a' ≤ c ∧ c ≤ 'f' then some (c.toNat - 87)
  else if 'A' ≤ c ∧ c ≤ 'F' then some (c.toNat - 55)
  else none

def hexDigitUpper (n : Nat) : Char :=
  if n < 10 then Char.ofNat (48 + n) else Char.ofNat (55 + n)

/-- Two-digit uppercase hex of a byte, as used by `urllib.parse.quote`. -/
def hex2 (b : Nat) : String := String.mk [hexDigitUpper (b / 16), hexDigitUpper (b % 16)]

/-- Digit run of Python `int(s)`: base-10 digits with single underscores
    allowed between digits. The flag records whether the previous
    character was a digit. -/
def pyIntDigits : List Char → Bool → Option Nat → Option Nat
  | [], prevDigit, acc => if prevDigit then acc else none
  | c :: rest, prevDigit, acc =>
    if c.isDigit then pyIntDigits rest true (some ((acc.getD 0) * 10 + (c.toNat - 48)))
    else if c = '_' ∧ prevDigit then pyIntDigits rest false acc
    else none

/-- Python `int(s)` (base 10): surrounding whitespace stripped, optional
    sign, digits; `none` models a raised `ValueError`. -/
def pyInt? (s : String) : Option Int :=
  match (pyStrip s).data with
  | '-' :: rest => (pyIntDigits rest false none).map (fun n => -(n : Int))
  | '+' :: rest => (pyIntDigits rest false none).map (fun n => (n : Int))
  | l => (pyIntDigits l false none).map (fun n => (n : Int))

/-! ## UTF-8 encoding and decoding (bytes are `Nat`, values < 256) -/

/-- UTF-8 encoding of one scalar value. -/
def encodeChar (c : Char) : List Nat :=
  let n := c.toNat
  if n < 0x80 then [n]
  else if n < 0x800 then [0xC0 + n / 64, 0x80 + n % 64]
  else if n < 0x10000 then [0xE0 + n / 4096, 0x80 + (n / 64) % 64, 0x80 + n % 64]
  else [0xF0 + n / 262144, 0x80 + (n / 4096) % 64, 0x80 + (n / 64) % 64, 0x80 + n % 64]

/-- `s.encode()`: the UTF-8 bytes of a Python `str`. -/
def strBytes (s : String) : List Nat :=
  (s.data.map encodeChar).foldr (fun a b => a ++ b) []

/-- `len(s.encode())`. -/
def bytesLen (s : String) : Nat := (strBytes s).length

inductive DecMode where
  | strict
  | ignore
  | replace
deriving Repr, DecidableEq

/-- Error handling of the three decode modes: `strict` fails the whole
    decode; `ignore` drops the offending byte; `replace` emits U+FFFD
    for it and continues (Python groups maximal invalid subsequences,
    which only changes the number of U+FFFD emitted — the inputs the
    proxy handles are ASCII). -/
def utf8OnErr (mode : DecMode) (tail : Option (List Char)) : Option (List Char) :=
  match mode, tail with
  | .strict, _ => none
  | .ignore, t => t
  | .replace, t => t.map (fun cs => Char.ofNat 0xFFFD :: cs)

def isCont (b : Nat) : Bool := 0x80 ≤ b ∧ b < 0xC0

/-- One decoding loop step per unit of fuel; each step consumes at least
    one byte, so fuel equal to the byte count always suffices and the
    fuel-exhausted base case is unreachable. -/
def utf8Go (mode : DecMode) : Nat → List Nat → Option (List Char)
  | _, [] => some []
  | 0, _ :: _ => some []
  | fuel + 1, b :: rest =>
    if b < 0x80 then (utf8Go mode fuel rest).map (fun cs => Char.ofNat b :: cs)
    else if b < 0xC2 then utf8OnErr mode (utf8Go mode fuel rest)
    else if b < 0xE0 then
      match rest with
      | b2 :: rest2 =>
        if isCont b2 then
          (utf8Go mode fuel rest2).map (fun cs => Char.ofNat ((b - 0xC0) * 64 + (b2 - 0x80)) :: cs)
        else utf8OnErr mode (utf8Go mode fuel rest)
      | [] => utf8OnErr mode (some [])
    else if b < 0xF0 then
      match rest with
      | b2 :: b3 :: rest3 =>
        if (if b = 0xE0 then 0xA0 ≤ b2 ∧ b2 < 0xC0
            else if b = 0xED then 0x80 ≤ b2 ∧ b2 < 0xA0
            else isCont b2 = true) ∧ isCont b3 then
          (utf8Go mode fuel rest3).map
            (fun cs => Char.ofNat ((b - 0xE0) * 4096 + (b2 - 0x80) * 64 + (b3 - 0x80)) :: cs)
        else utf8OnErr mode (utf8Go mode fuel rest)
      | _ => utf8OnErr mode (utf8Go mode fuel rest)
    else if b < 0xF5 then
      match rest with
      | b2 :: b3 :: b4 :: rest4 =>
        if (if b = 0xF0 then 0x90 ≤ b2 ∧ b2 < 0xC0
            else if b = 0xF4 then 0x80 ≤ b2 ∧ b2 < 0x90
            else isCont b2 = true) ∧ isCont b3 ∧ isCont b4 then
          (utf8Go mode fuel rest4).map
            (fun cs => Char.ofNat ((b - 0xF0) * 262144 + (b2 - 0x80) * 4096 + (b3 - 0x80) * 64 + (b4 - 0x80)) :: cs)
        else utf8OnErr mode (utf8Go mode fuel rest)
      | _ => utf8OnErr mode (utf8Go mode fuel rest)
    else utf8OnErr mode (utf8Go mode fuel rest)

def utf8DecodeAux (mode : DecMode) (bs : List Nat) : Option (List Char) :=
  utf8Go mode bs.length bs

/-- `bytes.decode('utf-8')`; `none` models a raised `UnicodeDecodeError`. -/
def utf8DecodeStrict (bs : List Nat) : Option String :=
  (utf8DecodeAux .strict bs).map String.mk

/-- `bytes.decode(errors='ignore')`; always succeeds. -/
def utf8DecodeIgnore (bs : List Nat) : String :=
  String.mk ((utf8DecodeAux .ignore bs).getD [])

/-- `bytes.decode(errors='replace')`; always succeeds. -/
def utf8DecodeReplace (bs : List Nat) : String :=
  String.mk ((utf8DecodeAux .replace bs).getD [])

/-! ## Python `dict` as an insertion-ordered association list -/

/-- `d[k] = v`: overwrite in place if the key exists, else append. -/
def dictSet (d : List (String × α)) (k : String) (v : α) : List (String × α) :=
  if d.any (fun p => p.1 == k) then d.map (fun p => if p.1 == k then (k, v) else p)
  else d ++ [(k, v)]

def dictGet? (d : List (String × α)) (k : String) : Option α :=
  (d.find? (fun p => p.1 == k)).map (fun p => p.2)

def dictGetD (d : List (String × α)) (k : String) (dflt : α) : α :=
  (dictGet? d k).getD dflt

def dictHas (d : List (String × α)) (k : String) : Bool :=
  d.any (fun p => p.1 == k)

/-- `d.pop(k, None)`. -/
def dictPop (d : List (String × α)) (k : String) : List (String × α) :=
  d.filter (fun p => p.1 != k)

/-- `{k: v for (k, v) in ps}`. -/
def dictFromPairs (ps : List (String × α)) : List (String × α) :=
  ps.foldl (fun d p => dictSet d p.1 p.2) []

/-- `d.update(extra)`. -/
def dictUpdate (d extra : List (String × α)) : List (String × α) :=
  extra.foldl (fun acc p => dictSet acc p.1 p.2) d


/-! ## `urllib.parse`: percent-coding and query strings -/

/-- Unreserved bytes of `urllib.parse.quote` (letters, digits, `_.-~`). -/
def isAlwaysSafeByte (b : Nat) : Bool :=
  (65 ≤ b ∧ b ≤ 90) ∨ (97 ≤ b ∧ b ≤ 122) ∨ (48 ≤ b ∧ b ≤ 57) ∨
    b = 95 ∨ b = 46 ∨ b = 45 ∨ b = 126

/-- `urllib.parse.quote(s, safe)`: UTF-8 encode, keep safe bytes,
    percent-encode the rest with uppercase hex (only ASCII characters of
    `safe` count). -/
def quote (s : String) (safe : String) : String :=
  let safeB := (strBytes safe).filter (fun b => b < 128)
  concatAll ((strBytes s).map (fun b =>
    if isAlwaysSafeByte b ∨ safeB.contains b then String.mk [Char.ofNat b]
    else "%" ++ hex2 b))

/-- Byte layer of `urllib.parse.unquote`: `%XX` with two hex digits
    becomes one byte, anything else contributes its UTF-8 bytes
    (a `%` not followed by two hex digits is kept literally). -/
def unquoteBytes : List Char → List Nat
  | [] => []
  | '%' :: a :: b :: rest =>
    match hexVal a, hexVal b with
    | some x, some y => (16 * x + y) :: unquoteBytes rest
    | _, _ => 37 :: unquoteBytes (a :: b :: rest)
  | c :: rest => encodeChar c ++ unquoteBytes rest

/-- `urllib.parse.unquote(s)`: percent-decode, then decode the bytes as
    UTF-8 with `errors='replace'` (Python decodes each percent-run
    separately, which agrees with this on the ASCII data the proxy
    handles). Never raises. -/
def unquote (s : String) : String :=
  utf8DecodeReplace (unquoteBytes s.data)

def unquote_plus (s : String) : String :=
  unquote (replaceChar s '+' " ")

/-- `urllib.parse.quote_plus(s)` with default `safe=''`. -/
def quote_plus (s : String) : String :=
  if s.data.contains ' ' then replaceChar (quote s " ") ' ' "+" else quote s ""

/-- `urllib.parse.urlencode(pairs)` with the default `quote_via=quote_plus`. -/
def urlencode (pairs : List (String × String)) : String :=
  joinWith "&" (pairs.map (fun p => quote_plus p.1 ++ "=" ++ quote_plus p.2))

/-- One `name=value` field of `urllib.parse.parse_qsl`: empty fields are
    skipped; a field without `=` is kept (with empty value) only when
    `keep_blank_values` is set; names and values go through
    `unquote_plus`. -/
def parseQsField (keepBlank : Bool) (field : String) : Option (String × String) :=
  if field = "" then none
  else
    match splitOnceChar field '=' with
    | (n, some v) => some (unquote_plus n, unquote_plus v)
    | (n, none) => if keepBlank then some (unquote_plus n, "") else none

def parse_qsl (qs : String) (keepBlank : Bool) : List (String × String) :=
  (splitOnChar qs '&').filterMap (parseQsField keepBlank)

/-- `urllib.parse.parse_qs`: fold the pair list into a dict of lists. -/
def parse_qs (qs : String) (keepBlank : Bool) : List (String × List String) :=
  (parse_qsl qs keepBlank).foldl
    (fun d p =>
      if dictHas d p.1 then d.map (fun q => if q.1 == p.1 then (q.1, q.2 ++ [p.2]) else q)
      else d ++ [(p.1, [p.2])])
    []

/-! ## `urllib.parse`: URL splitting and joining -/

structure SplitResult where
  scheme : String
  netloc : String
  path : String
  query : String
  fragment : String
deriving Repr, DecidableEq

structure ParseResult where
  scheme : String
  netloc : String
  path : String
  params : String
  query : String
  fragment : String
deriving Repr, DecidableEq

inductive PyKind where
  | osError
  | timeoutError
  | httpException
  | valueError
  | connectionError
  | unicodeError
  | other
deriving Repr, DecidableEq

/-- A raised Python exception: its class (grouped by how the proxy
    catches them) and its `str()`. -/
structure PyErr where
  kind : PyKind
  msg : String
deriving Repr, DecidableEq

def isSchemeChar (c : Char) : Bool :=
  c.isAlpha ∨ c.isDigit ∨ c = '+' ∨ c = '-' ∨ c = '.'

def isC0OrSpace (c : Char) : Bool := c.toNat ≤ 0x20

def isNetlocDelim (c : Char) : Bool := c = '/' ∨ c = '?' ∨ c = '#'

/-- `urllib.parse.urlsplit` (CPython: lstrip C0-controls/space from the
    URL, remove tab/CR/LF, split off `scheme:`, `//netloc`, `#fragment`,
    `?query`; an unmatched `[`/`]` in the netloc raises `ValueError`).
    The NFKC netloc check is a no-op for ASCII netlocs and is modelled as
    such; the bracketed-host validation added in CPython 3.11 is not
    modelled. -/
def urlsplit (url0 : String) (schemeDefault : String) : Except PyErr SplitResult :=
  let chars := ((url0.data.dropWhile isC0OrSpace).filter
    (fun c => c ≠ '\t' ∧ c ≠ '\r' ∧ c ≠ '\n'))
  let schemeD := ((schemeDefault.data.dropWhile isC0OrSpace).reverse.dropWhile isC0OrSpace).reverse.filter
    (fun c => c ≠ '\t' ∧ c ≠ '\r' ∧ c ≠ '\n')
  let headAlpha : Bool :=
    match chars.head? with
    | some c0 => c0.toNat < 128 ∧ c0.isAlpha
    | none => false
  let sp : List Char × List Char :=
    match chars.findIdx? (fun c => c == ':') with
    | some i =>
      if 0 < i ∧ headAlpha ∧ (chars.take i).all isSchemeChar then
        ((chars.take i).map pyLowerChar, chars.drop (i + 1))
      else (schemeD, chars)
    | none => (schemeD, chars)
  let scheme := sp.1
  let rest := sp.2
  let np : List Char × List Char :=
    if rest.take 2 = ['/', '/'] then
      ((rest.drop 2).takeWhile (fun c => ¬ isNetlocDelim c),
       (rest.drop 2).dropWhile (fun c => ¬ isNetlocDelim c))
    else ([], rest)
  let netloc := np.1
  if (netloc.contains '[' ∧ ¬ netloc.contains ']') ∨
     (netloc.contains ']' ∧ ¬ netloc.contains '[') then
    .error ⟨.valueError, "Invalid IPv6 URL"⟩
  else
    let fp : List Char × List Char :=
      if np.2.contains '#' then
        (np.2.takeWhile (fun c => c ≠ '#'), (np.2.dropWhile (fun c => c ≠ '#')).drop 1)
      else (np.2, [])
    let qp : List Char × List Char :=
      if fp.1.contains '?' then
        (fp.1.takeWhile (fun c => c ≠ '?'), (fp.1.dropWhile (fun c => c ≠ '?')).drop 1)
      else (fp.1, [])
    .ok ⟨String.mk scheme, String.mk netloc, String.mk qp.1, String.mk qp.2, String.mk fp.2⟩

def uses_params : List String :=
  ["", "ftp", "hdl", "prospero", "http", "imap", "https", "shttp", "rtsp",
   "rtspu", "sip", "sips", "mms", "sftp", "tel"]

def uses_relative : List String :=
  ["", "ftp", "http", "gopher", "nntp", "imap", "wais", "file", "https",
   "shttp", "mms", "prospero", "rtsp", "rtspu", "sftp", "svn", "svn+ssh",
   "ws", "wss"]

def uses_netloc : List String :=
  ["", "ftp", "http", "gopher", "nntp", "telnet", "imap", "wais", "file",
   "mms", "https", "shttp", "snews", "prospero", "rtsp", "rtspu", "rsync",
   "svn", "svn+ssh", "sftp", "nfs", "git", "git+ssh", "ws", "wss",
   "itms-services"]

/-- `urllib.parse._splitparams`. -/
def splitparams (url : String) : String × String :=
  let l := url.data
  if l.contains '/' then
    let lastSlash := l.length - 1 - ((l.reverse.findIdx? (fun c => c == '/')).getD 0)
    match (l.drop lastSlash).findIdx? (fun c => c == ';') with
    | none => (url, "")
    | some j => (String.mk (l.take (lastSlash + j)), String.mk (l.drop (lastSlash + j + 1)))
  else
    match l.findIdx? (fun c => c == ';') with
    | none => (url, "")
    | some i => (String.mk (l.take i), String.mk (l.drop (i + 1)))

def urlparse (url : String) (schemeDefault : String) : Except PyErr ParseResult :=
  match urlsplit url schemeDefault with
  | .error e => .error e
  | .ok r =>
    if uses_params.contains r.scheme ∧ r.path.data.contains ';' then
      let pp := splitparams r.path
      .ok ⟨r.scheme, r.netloc, pp.1, pp.2, r.query, r.fragment⟩
    else .ok ⟨r.scheme, r.netloc, r.path, "", r.query, r.fragment⟩

def urlunsplit (scheme netloc path query fragment : String) : String :=
  let url1 :=
    if netloc ≠ "" ∨ strTake path 2 = "//" then
      "//" ++ netloc ++ (if path ≠ "" ∧ ¬ strStartsWith path "/" then "/" ++ path else path)
    else path
  let url2 := if scheme ≠ "" then scheme ++ ":" ++ url1 else url1
  let url3 := if query ≠ "" then url2 ++ "?" ++ query else url2
  if fragment ≠ "" then url3 ++ "#" ++ fragment else url3

def urlunparse (scheme netloc path params query fragment : String) : String :=
  urlunsplit scheme netloc (if params ≠ "" then path ++ ";" ++ params else path) query fragment

def ParseResult.geturl (p : ParseResult) : String :=
  urlunparse p.scheme p.netloc p.path p.params p.query p.fragment

/-- Keep first and last element, drop empty strings in between
    (`segments[1:-1] = filter(None, segments[1:-1])`). -/
def filterInterior (l : List String) : List String :=
  match l with
  | [] => []
  | x :: rest =>
    match rest.getLast? with
    | none => [x]
    | some last => x :: ((rest.dropLast.filter (fun s => s ≠ "")) ++ [last])

/-- `urllib.parse.urljoin` (allow_fragments left at its default). -/
def urljoin (base url : String) : Except PyErr String :=
  if base = "" then .ok url
  else if url = "" then .ok base
  else
    match urlparse base "" with
    | .error e => .error e
    | .ok b =>
      match urlparse url b.scheme with
      | .error e => .error e
      | .ok u =>
        if u.scheme ≠ b.scheme ∨ ¬ uses_relative.contains u.scheme then .ok url
        else if uses_netloc.contains u.scheme ∧ u.netloc ≠ "" then
          .ok (urlunparse u.scheme u.netloc u.path u.params u.query u.fragment)
        else
          let netloc := if uses_netloc.contains u.scheme then b.netloc else u.netloc
          if u.path = "" ∧ u.params = "" then
            .ok (urlunparse u.scheme netloc b.path b.params
              (if u.query = "" then b.query else u.query) u.fragment)
          else
            let base_parts0 := splitOnChar b.path '/' 
            let base_parts :=
              if base_parts0.getLast? ≠ some "" then base_parts0.dropLast else base_parts0
            let segments :=
              if strStartsWith u.path "/" then splitOnChar u.path '/'
              else filterInterior (base_parts ++ splitOnChar u.path '/')
            let resolved := segments.foldl
              (fun acc seg =>
                if seg = ".." then acc.dropLast
                else if seg = "." then acc
                else acc ++ [seg]) []
            let resolved2 :=
              if segments.getLast? = some "." ∨ segments.getLast? = some ".." then
                resolved ++ [""]
              else resolved
            let joined := joinWith "/" resolved2
            .ok (urlunparse u.scheme netloc (if joined ≠ "" then joined else "/")
              u.params u.query u.fragment)

/-- `SplitResult._hostinfo`: userinfo stripped at the last `@`; the host
    (possibly bracketed) and the optional port text. -/
def ParseResult.hostinfo (p : ParseResult) : String × Option String :=
  let l := p.netloc.data
  let hostinfo :=
    match l.reverse.findIdx? (fun c => c == '@') with
    | none => l
    | some i => (l.reverse.take i).reverse
  if hostinfo.contains '[' then
    let bracketed := (hostinfo.dropWhile (fun c => c ≠ '[')).drop 1
    let hostname := bracketed.takeWhile (fun c => c ≠ ']')
    let afterBr := (bracketed.dropWhile (fun c => c ≠ ']')).drop 1
    let portTxt :=
      if afterBr.contains ':' then String.mk ((afterBr.dropWhile (fun c => c ≠ ':')).drop 1)
      else ""
    (String.mk ('[' :: hostname ++ [']']), if portTxt = "" then none else some portTxt)
  else
    let hostname := hostinfo.takeWhile (fun c => c ≠ ':')
    let portTxt :=
      if hostinfo.contains ':' then String.mk ((hostinfo.dropWhile (fun c => c ≠ ':')).drop 1)
      else ""
    (String.mk hostname, if portTxt = "" then none else some portTxt)

/-- `.hostname` property: lowercased host, `None` when empty. -/
def ParseResult.hostnameStr (p : ParseResult) : Option String :=
  let h := p.hostinfo.1
  if h = "" then none else some (pyLower h)

/-- `.port` property: parse the port text with `int(-, 10)`; raises
    `ValueError` for non-numeric or out-of-range values. -/
def ParseResult.portE (p : ParseResult) : Except PyErr (Option Int) :=
  match p.hostinfo.2 with
  | none => .ok none
  | some ps =>
    match pyInt? ps with
    | none => .error ⟨.valueError, "Port could not be cast to integer value"⟩
    | some n =>
      if 0 ≤ n ∧ n ≤ 65535 then .ok (some n)
      else .error ⟨.valueError, "Port out of range 0-65535"⟩


/-! ## Embedding of `src/nomad-proxy.py` -/

def USER_AGENT : String := "NomadAsyncProxy/0.2"

def MAX_HEADER_SIZE : Nat := 32 * 1024

def MAX_BODY_SIZE : Nat := 16 * 1024 * 1024

def COOKIE_NAME : String := "ProxyTarget"

def LAST_COOKIE_NAME : String := "LastTarget"

/-- `html_escape`. -/
def html_escape (s : String) : String :=
  replaceChar (replaceChar (replaceChar (replaceChar (replaceChar s
    '&' "&amp;") '<' "&lt;") '>' "&gt;") '\x22' "&quot;") '\x27' "&#x27;"

/-- `build_form_html`: the selection form (the Python function returns
    its UTF-8 encoding; bodies are compared as strings here and measured
    with `bytesLen`). -/
def build_form_html (prefill : Option String) : String :=
  let value_attr :=
    match prefill with
    | some p => if p ≠ "" then " value=\"" ++ html_escape p ++ "\"" else ""
    | none => ""
  "<!doctype html>\n" ++
  "<html lang=\x27en\x27>\n" ++
  "    <head>\n" ++
  "        <meta charset=\x27utf-8\x27>\n" ++
  "        <title>Nomad Proxy</title>\n" ++
  "        <meta name=\x27viewport\x27 content=\x27width=device-width,initial-scale=1\x27>\n" ++
  "        <style>\n" ++
  "            :root \x7b color-scheme: light dark; \x7d\n" ++
  "            body \x7b font-family: system-ui,-apple-system,Segoe UI,Roboto,sans-serif; margin: 3em auto; max-width: 42em; line-height: 1.4; \x7d\n" ++
  "            h1 \x7b margin-top: 0; font-size: 1.6rem; \x7d\n" ++
  "            form \x7b margin-top: 1.5em; \x7d\n" ++
  "            label \x7b font-weight: 600; display: block; margin-bottom: .5em; \x7d\n" ++
  "            input[type=url] \x7b width: 100%; padding: .6em .7em; font-size: 1rem; border: 1px solid #888; border-radius: .4em; \x7d\n" ++
  "            input[type=url]:focus \x7b outline: 2px solid #4a90e2; \x7d\n" ++
  "            button \x7b padding: .65em 1.4em; font-size: 1rem; font-weight: 600; border: none; border-radius: .4em; background: #4a90e2; color: #fff; cursor: pointer; \x7d\n" ++
  "            button:hover \x7b background: #357ABD; \x7d\n" ++
  "            footer \x7b margin-top: 2.5em; font-size: .8em; color: #666; \x7d\n" ++
  "        </style>\n" ++
  "    </head>\n" ++
  "    <body>\n" ++
  "        <h1>Nomad Proxy</h1>\n" ++
  "        <form method=\x27post\x27 action=\x27/\x27 aria-label=\x27Nomad target selection\x27>\n" ++
  "            <label for=\x27target\x27>Enter your Nomad\x27s screen sharing URL</label>\n" ++
  "            <input id=\x27target\x27 name=\x27target\x27 type=\x27url\x27 placeholder=\x27http://192.168.1.203:8080\x27 required pattern=\x27https?://.+\x27 autofocus" ++
  value_attr ++ ">\n" ++
  "            <p><button type=\x27submit\x27>Connect</button></p>\n" ++
  "        </form>\n" ++
  "        <footer>When the server disconnects, reload this page to choose a new target.</footer>\n" ++
  "    </body>\n" ++
  "</html>"

/-- One `writer.write(...)` call on the client connection.
    `status`/`header`/`blank` are the structured writes made by
    `build_response_status` / `send_basic_headers` / the blank separator;
    `strData` is any other write of an encoded string; `byteData` is a
    write of raw bytes. -/
inductive Chunk where
  | status (code : Int) (reason : String)
  | header (k v : String)
  | blank
  | strData (s : String)
  | byteData (b : List Nat)
deriving Repr, DecidableEq

/-- The bytes a write event puts on the wire. -/
def Chunk.render : Chunk → List Nat
  | .status code reason => strBytes ("HTTP/1.1 " ++ toString code ++ " " ++ reason ++ crlf)
  | .header k v => strBytes (k ++ ": " ++ v ++ crlf)
  | .blank => strBytes crlf
  | .strData s => strBytes s
  | .byteData b => b

def wireBytes (chunks : List Chunk) : List Nat :=
  (chunks.map Chunk.render).foldr (fun a b => a ++ b) []

/-- A header value in the response-header dict: plain string, or a list
    (emitted as repeated header lines, used for `Set-Cookie`). -/
inductive HVal where
  | str (s : String)
  | list (l : List String)
deriving Repr, DecidableEq

def renderHeader (p : String × HVal) : List Chunk :=
  match p.2 with
  | .str v => [Chunk.header p.1 v]
  | .list vs => vs.map (fun v => Chunk.header p.1 v)

/-- `build_response_status`. -/
def build_response_status (code : Int) (reason : String) : Chunk :=
  Chunk.status code reason

/-- `send_basic_headers`: `Server` and `Connection: close` defaults,
    updated by `extra` (dict update), one write per header line. -/
def send_basic_headers (extra : List (String × HVal)) : List Chunk :=
  ((dictUpdate [("Server", HVal.str USER_AGENT), ("Connection", HVal.str "close")] extra).map
    renderHeader).foldr (fun a b => a ++ b) []

/-- Header loop of `read_request`: `total` is the cumulative raw byte
    count; a line that is empty or a bare CRLF/LF ends the loop; lines
    without a colon are skipped; exceeding `MAX_HEADER_SIZE` raises. -/
def read_headers : List (List Nat) → Nat → List (String × String) →
    Except PyErr (List (String × String))
  | [], _, hdrs => .ok hdrs
  | line :: restL, total, hdrs =>
    if line = [] ∨ line = [13, 10] ∨ line = [10] then .ok hdrs
    else
      let total2 := total + line.length
      if MAX_HEADER_SIZE < total2 then .error ⟨.valueError, "Headers too large"⟩
      else
        match splitOnceChar (utf8DecodeIgnore line) ':' with
        | (_, none) => read_headers restL total2 hdrs
        | (k, some v) => read_headers restL total2 (dictSet hdrs (pyStrip k) (pyStrip v))

/-- `read_request` on the sequence of lines `readline` yields (an
    exhausted stream yields empty bytes). Returns
    `(method.upper(), path, version, headers)`. -/
def read_request (lines : List (List Nat)) :
    Except PyErr (String × String × String × List (String × String)) :=
  match lines with
  | [] => .error ⟨.connectionError, "Empty request line"⟩
  | line :: restL =>
    if line = [] then .error ⟨.connectionError, "Empty request line"⟩
    else
      match pySplit (pyStrip (utf8DecodeIgnore line)) with
      | [m, p, v] =>
        match read_headers restL 0 [] with
        | .error e => .error e
        | .ok hdrs => .ok (pyUpper m, p, v, hdrs)
      | _ => .error ⟨.valueError, "Malformed request line"⟩

/-- `parse_cookies`. -/
def parse_cookies (header_value : String) : List (String × String) :=
  if header_value = "" then []
  else
    (splitOnChar header_value ';').foldl
      (fun cookies part =>
        if strContainsChar part '=' then
          match splitOnceChar (pyStrip part) '=' with
          | (k, some v) => dictSet cookies k v
          | (k, none) => dictSet cookies k ""
        else cookies)
      []

/-- `validate_target`. -/
def validate_target (url : String) : Option ParseResult :=
  match urlparse url "" with
  | .error _ => none
  | .ok parsed =>
    if ¬ (parsed.scheme = "http" ∨ parsed.scheme = "https") ∨ parsed.netloc = "" then none
    else some parsed

/-- The `(host, path)` pair `fetch_via_httpclient` sends its GET to. -/
def fetchTargetPath (parsed : ParseResult) (path_override : Option String) : String :=
  let tp := path_override.getD (if parsed.path ≠ "" then parsed.path else "/")
  if parsed.query ≠ "" then tp ++ "?" ++ parsed.query else tp

/-- `fetch_via_httpclient`, with the network as an oracle from
    `(host, path)` to the upstream outcome; the response headers are
    collapsed into a dict and the body read is capped at
    `MAX_BODY_SIZE`. -/
def fetch_via_httpclient (net : String → String → Except PyErr (Int × String × List (String × String) × List Nat))
    (parsed : ParseResult) (path_override : Option String) :
    Except PyErr (Int × String × List (String × String) × List Nat) :=
  match net parsed.netloc (fetchTargetPath parsed path_override) with
  | .error e => .error e
  | .ok (st, rsn, hdrs, bdy) => .ok (st, rsn, dictFromPairs hdrs, bdy.take MAX_BODY_SIZE)

/-- `combine_paths` (raises only through `urljoin`, whose URL reparsing
    can reject bracket-mismatched netlocs). -/
def combine_paths (base : ParseResult) (requested_path : String) : Except PyErr String :=
  let base_path := if base.path ≠ "" then base.path else "/"
  let combinedE :=
    if ¬ strEndsWith base_path "/" ∧ requested_path ≠ "/" then
      Except.ok (base_path ++ requested_path)
    else if base_path = "/" then Except.ok requested_path
    else
      urljoin (base_path ++ (if ¬ strEndsWith base_path "/" then "/" else ""))
        (pyLStripChar requested_path '/')
  match combinedE with
  | .error e => .error e
  | .ok combined =>
    .ok (if ¬ strStartsWith combined "/" then "/" ++ combined else combined)

/-- What the remote side of a streaming connection does: the status
    line and header lines `readline` yields, then the outcomes of
    successive `read(8192)` calls. -/
inductive StreamEvent where
  | chunk (b : List Nat)
  | rerr (e : PyErr)
  | cancel
deriving Repr, DecidableEq

structure RemoteStream where
  statusLine : List Nat
  headerLines : List (List Nat)
  events : List StreamEvent
deriving Repr, DecidableEq

/-- The oracles of one request: `net` answers the buffered GET,
    `streamNet` answers `asyncio.open_connection` plus the GET sent on
    it for streaming (host, port, request path),
    `isClosing`/`drainReset` describe the client socket before/at the
    n-th drain of the streaming relay. -/
structure Ctx where
  net : String → String → Except PyErr (Int × String × List (String × String) × List Nat)
  streamNet : String → Int → String → Except PyErr RemoteStream
  isClosing : Nat → Bool
  drainReset : Nat → Bool

/-- Everything `handle_proxy`/`client_handler` did to the outside world:
    client write events, buffered GETs issued, streaming connections
    opened, and the exception escaping the handler, if any. -/
structure HRes where
  chunks : List Chunk
  fetches : List (String × String)
  opens : List (String × Int)
  err : Option PyErr
deriving Repr, DecidableEq

/-- Body relay loop of `stream_mjpeg`: an empty read ends the stream; a
    read error propagates (after the chunks already written); writes
    happen before the `is_closing`/drain checks; a reset/broken-pipe
    during drain ends the stream quietly; cancellation ends it. -/
def streamLoop (isClosing drainReset : Nat → Bool) :
    List StreamEvent → Nat → List Chunk × Option PyErr
  | [], _ => ([], none)
  | .chunk b :: rest, n =>
    if b = [] then ([], none)
    else if isClosing n then ([Chunk.byteData b], none)
    else if drainReset n then ([Chunk.byteData b], none)
    else
      let t := streamLoop isClosing drainReset rest (n + 1)
      (Chunk.byteData b :: t.1, t.2)
  | .rerr e :: _, _ => ([], some e)
  | .cancel :: _, _ => ([], none)

/-- Header loop of `stream_mjpeg` (same leniency as `read_headers`, no
    size cap; terminator lines end it). -/
def readStreamHeaders : List (List Nat) → List (String × HVal) → List (String × HVal)
  | [], acc => acc
  | line :: rest, acc =>
    if line = [] ∨ line = [13, 10] ∨ line = [10] then acc
    else
      match splitOnceChar (utf8DecodeIgnore line) ':' with
      | (_, none) => readStreamHeaders rest acc
      | (k, some v) => readStreamHeaders rest (dictSet acc (pyStrip k) (HVal.str (pyStrip v)))

/-- `remote_port = parsed.port or (443 if scheme == 'https' else 80)`:
    a falsy (absent or zero) port falls back to the scheme default. -/
def stream_remote_port (parsed : ParseResult) (portOpt : Option Int) : Int :=
  match portOpt with
  | some p => if p ≠ 0 then p else (if parsed.scheme = "https" then 443 else 80)
  | none => if parsed.scheme = "https" then 443 else 80

/-- `stream_mjpeg`: returns the client write events, the connections
    opened, and the exception it raises, if any. -/
def stream_mjpeg (ctx : Ctx) (parsed : ParseResult) (remote_path : String)
    (cookie_to_set : Option String) : List Chunk × List (String × Int) × Option PyErr :=
  match parsed.hostnameStr with
  | none => ([], [], some ⟨.valueError, "No hostname in target URL"⟩)
  | some host =>
    match parsed.portE with
    | .error e => ([], [], some e)
    | .ok portOpt =>
      let remote_port : Int := stream_remote_port parsed portOpt
      match ctx.streamNet host remote_port remote_path with
      | .error e => ([], [(host, remote_port)], some e)
      | .ok rs =>
        if rs.statusLine = [] then
          ([], [(host, remote_port)], some ⟨.connectionError, "Empty status line from remote stream"⟩)
        else
          let parts := pySplit (pyStrip (utf8DecodeIgnore rs.statusLine))
          if parts.length < 3 then
            ([], [(host, remote_port)], some ⟨.valueError, "Malformed remote status line"⟩)
          else
            match pyInt? (parts.getD 1 "") with
            | none => ([], [(host, remote_port)], some ⟨.valueError, "Invalid status code from remote stream"⟩)
            | some status_code =>
              let reason := joinWith " " (parts.drop 2)
              let remote_headers := readStreamHeaders rs.headerLines []
              let rh := dictSet (dictPop remote_headers "Content-Length") "Connection" (HVal.str "close")
              let rh2 :=
                match cookie_to_set with
                | some c => dictSet rh "Set-Cookie" (HVal.str c)
                | none => rh
              let lp := streamLoop ctx.isClosing ctx.drainReset rs.events 0
              (build_response_status status_code reason :: send_basic_headers rh2 ++
                 Chunk.blank :: lp.1,
               [(host, remote_port)], lp.2)

def expired_proxy_cookie : String :=
  COOKIE_NAME ++ "=deleted; Path=/; Expires=Thu, 01 Jan 1970 00:00:00 GMT"

/-- Response of the `/reset` branch. -/
def reset_chunks (prefill : Option String) : List Chunk :=
  build_response_status 200 "OK" ::
  send_basic_headers
    [("Content-Type", HVal.str "text/html; charset=utf-8"),
     ("Set-Cookie", HVal.str expired_proxy_cookie),
     ("Content-Length", HVal.str (toString (bytesLen (build_form_html prefill))))] ++
  [Chunk.blank, Chunk.strData (build_form_html prefill)]

/-- Response of the no-selection branch (selection form). -/
def selection_form_chunks (prefill : Option String) : List Chunk :=
  build_response_status 200 "OK" ::
  send_basic_headers
    [("Content-Type", HVal.str "text/html; charset=utf-8"),
     ("Content-Length", HVal.str (toString (bytesLen (build_form_html prefill))))] ++
  [Chunk.blank, Chunk.strData (build_form_html prefill)]

/-- Response to an invalid explicitly-submitted target. -/
def invalid_target_chunks : List Chunk :=
  build_response_status 400 "Bad Request" ::
  send_basic_headers [("Content-Type", HVal.str "text/plain")] ++
  [Chunk.strData ("\r\nInvalid target URL")]

/-- The 502 block written when a forward attempt raises (`msgPre` is
    the message prefix, `e` the caught exception). -/
def bad_gateway_chunks (msgPre : String) (e : PyErr) : List Chunk :=
  build_response_status 502 "Bad Gateway" ::
  send_basic_headers
    [("Content-Type", HVal.str "text/plain"),
     ("Set-Cookie", HVal.str expired_proxy_cookie)] ++
  [Chunk.strData ("Content-Length: " ++ toString (bytesLen (msgPre ++ e.msg)) ++ "\r\n\r\n"),
   Chunk.strData (msgPre ++ e.msg)]

/-- Response of the POST-selection branch: 303 redirect. -/
def post_redirect_chunks (cookie_to_set last_cookie_to_set : String) : List Chunk :=
  build_response_status 303 "See Other" ::
  send_basic_headers
    [("Location", HVal.str "/"),
     ("Set-Cookie", HVal.list [cookie_to_set, last_cookie_to_set]),
     ("Content-Length", HVal.str "0")] ++
  [Chunk.blank]

def optTruthy : Option String → Bool
  | none => false
  | some s => s ≠ ""

def bytesTruthy : Option (List Nat) → Bool
  | none => false
  | some b => b ≠ []

/-- Exception classes caught around `stream_mjpeg`
    (`OSError, TimeoutError, http.client.HTTPException, ValueError,
    ConnectionError`). -/
def streamCaught (k : PyKind) : Bool :=
  k = .osError ∨ k = .timeoutError ∨ k = .httpException ∨ k = .valueError ∨ k = .connectionError

/-- Exception classes caught around `fetch_remote`
    (`OSError, TimeoutError, http.client.HTTPException`). -/
def fetchCaught (k : PyKind) : Bool :=
  k = .osError ∨ k = .timeoutError ∨ k = .httpException

/-- Lines 388-404: the relayed header block of a buffered forward:
    upstream headers minus `Connection`/`Transfer-Encoding`
    (case-insensitively), `Content-Length` set to the body length, and,
    when a new selection set a cookie, both `Set-Cookie` values. -/
def build_resp_block (resp_headers : List (String × String)) (bodyLen : Nat)
    (cookie_to_set last_cookie : Option String) (selected : ParseResult) :
    List (String × HVal) :=
  let block0 := resp_headers.foldl
    (fun d p =>
      if pyLower p.1 = "connection" ∨ pyLower p.1 = "transfer-encoding" then d
      else dictSet d p.1 (HVal.str p.2))
    []
  let block1 := dictSet block0 "Content-Length" (HVal.str (toString bodyLen))
  match cookie_to_set with
  | none => block1
  | some c =>
    let set_cookies :=
      match last_cookie with
      | some lc =>
        if lc ≠ "" then [c, LAST_COOKIE_NAME ++ "=" ++ lc ++ "; Path=/; HttpOnly"]
        else [c, LAST_COOKIE_NAME ++ "=" ++ quote selected.geturl "" ++ "; Path=/; HttpOnly"]
      | none => [c, LAST_COOKIE_NAME ++ "=" ++ quote selected.geturl "" ++ "; Path=/; HttpOnly"]
    dictSet block1 "Set-Cookie" (HVal.list set_cookies)

/-- Lines 341-408 of `handle_proxy`: forward the request to the selected
    target, streaming or buffered. -/
def forward_section (ctx : Ctx) (selected : ParseResult) (override : Option String)
    (cookie_to_set last_cookie : Option String) (url_path query : String) : HRes :=
  let remote_pathE :=
    match override with
    | some o => Except.ok o
    | none => combine_paths selected url_path
  match remote_pathE with
  | .error e => ⟨[], [], [], some e⟩
  | .ok remote_path0 =>
    if strEndsWith (pyLower remote_path0) ".mjpeg" then
      let s := stream_mjpeg ctx selected remote_path0 cookie_to_set
      match s.2.2 with
      | none => ⟨s.1, [], s.2.1, none⟩
      | some e =>
        if streamCaught e.kind then
          ⟨s.1 ++ bad_gateway_chunks "MJPEG stream failed: " e, [], s.2.1, none⟩
        else ⟨s.1, [], s.2.1, some e⟩
    else
      let remote_path :=
        if query ≠ "" then
          let filtered := dictPop (parse_qs query false) "target"
          if filtered ≠ [] then
            let remote_query := urlencode ((filtered.map
              (fun p => p.2.map (fun v => (p.1, v)))).foldr (fun a b => a ++ b) [])
            if remote_query ≠ "" then
              if strContainsChar remote_path0 '?' then remote_path0 ++ "&" ++ remote_query
              else remote_path0 ++ "?" ++ remote_query
            else remote_path0
          else remote_path0
        else remote_path0
      let freq := (selected.netloc, fetchTargetPath selected (some remote_path))
      match fetch_via_httpclient ctx.net selected (some remote_path) with
      | .error e =>
        if fetchCaught e.kind then
          ⟨bad_gateway_chunks "Remote fetch failed: " e, [freq], [], none⟩
        else ⟨[], [freq], [], some e⟩
      | .ok (status, reason, resp_headers, rbody) =>
        ⟨build_response_status status reason ::
           send_basic_headers (build_resp_block resp_headers rbody.length cookie_to_set last_cookie selected) ++
           [Chunk.blank, Chunk.byteData rbody],
         [freq], [], none⟩

/-- `handle_proxy`. -/
def handle_proxy (ctx : Ctx) (method path : String) (headers : List (String × String))
    (body : Option (List Nat)) : HRes :=
  let cookies := parse_cookies (dictGetD headers "Cookie" "")
  let pq := splitOnceChar path '?'
  let url_path := pq.1
  let query := pq.2.getD ""
  let params := parse_qs query false
  if url_path = "/reset" then
    let last_cookie := dictGet? cookies LAST_COOKIE_NAME
    let prefill := if optTruthy last_cookie then some (unquote (last_cookie.getD "")) else none
    ⟨reset_chunks prefill, [], [], none⟩
  else
    let new_target0 : Option String :=
      match dictGet? params "target" with
      | some (v :: _) => some v
      | _ => none
    let new_target : Option String :=
      if bytesTruthy body ∧
         strStartsWith (dictGetD headers "Content-Type" "") "application/x-www-form-urlencoded" then
        match utf8DecodeStrict (body.getD []) with
        | some bodyStr =>
          let post_params := parse_qs bodyStr true
          if ¬ optTruthy new_target0 ∧ dictHas post_params "target" then
            match dictGet? post_params "target" with
            | some (v :: _) => some v
            | _ => new_target0
          else new_target0
        | none => new_target0
      else new_target0
    let target_cookie := dictGet? cookies COOKIE_NAME
    let last_cookie := dictGet? cookies LAST_COOKIE_NAME
    if optTruthy new_target then
      match validate_target (new_target.getD "") with
      | none => ⟨invalid_target_chunks, [], [], none⟩
      | some parsed =>
        let tcv := quote (new_target.getD "") ""
        let cookie_to_set := COOKIE_NAME ++ "=" ++ tcv ++ "; Path=/; HttpOnly"
        let last_cookie_to_set := LAST_COOKIE_NAME ++ "=" ++ tcv ++ "; Path=/; HttpOnly"
        if method = "POST" then
          ⟨post_redirect_chunks cookie_to_set last_cookie_to_set, [], [], none⟩
        else
          forward_section ctx parsed (some (if parsed.path ≠ "" then parsed.path else "/"))
            (some cookie_to_set) last_cookie url_path query
    else
      let selected : Option ParseResult :=
        if optTruthy target_cookie then validate_target (unquote (target_cookie.getD ""))
        else none
      match selected with
      | none =>
        let prefill :=
          if optTruthy last_cookie ∧ ¬ optTruthy target_cookie then
            some (unquote (last_cookie.getD ""))
          else none
        ⟨selection_form_chunks prefill, [], [], none⟩
      | some sel => forward_section ctx sel none none last_cookie url_path query

/-- The client connection input: the lines `readline` yields during
    request parsing, then the raw bytes available to `readexactly` for
    the body. -/
structure InStream where
  lines : List (List Nat)
  rest : List Nat

/-- Response of the read-failure branch of `client_handler`. -/
def bad_request_chunks : List Chunk :=
  build_response_status 400 "Bad Request" ::
  send_basic_headers [("Content-Type", HVal.str "text/plain")] ++
  [Chunk.strData ("\r\nBad Request")]

/-- Response of the oversized-POST branch. -/
def payload_too_large_chunks : List Chunk :=
  build_response_status 413 "Payload Too Large" ::
  send_basic_headers [("Content-Type", HVal.str "text/plain")] ++
  [Chunk.strData ("\r\nForm too large")]

/-- Response of the unsupported-method branch. -/
def method_not_allowed_chunks : List Chunk :=
  build_response_status 405 "Method Not Allowed" ::
  send_basic_headers [("Allow", HVal.str "GET, HEAD, POST"), ("Content-Type", HVal.str "text/plain")] ++
  [Chunk.strData ("\r\nMethod not supported")]

/-- `client_handler`: parse failures from `read_request` are answered
    400; for POST the `Content-Length` is parsed with `int` *outside*
    any try, so a non-numeric value raises out of the handler
    (`err` set, nothing written); exceptions escaping `handle_proxy`
    are likewise not caught (only `CancelledError` is, and re-raised). -/
def client_handler (ctx : Ctx) (stream : InStream) : HRes :=
  match read_request stream.lines with
  | .error e =>
    if e.kind = .valueError ∨ e.kind = .connectionError then
      ⟨bad_request_chunks, [], [], none⟩
    else ⟨[], [], [], some e⟩
  | .ok (method, path, _version, headers) =>
    if method = "POST" then
      let raw := dictGetD headers "Content-Length" "0"
      let clenStr := if raw ≠ "" then raw else "0"
      match pyInt? clenStr with
      | none =>
        ⟨[], [], [], some ⟨.valueError, "invalid literal for int() with base 10: " ++ clenStr⟩⟩
      | some clen =>
        if 4096 < clen then ⟨payload_too_large_chunks, [], [], none⟩
        else if clen ≠ 0 then
          if clen < 0 then
            ⟨[], [], [], some ⟨.valueError, "readexactly size can not be less than zero"⟩⟩
          else if stream.rest.length < clen.toNat then
            ⟨[], [], [], some ⟨.other, "IncompleteReadError"⟩⟩
          else handle_proxy ctx method path headers (some (stream.rest.take clen.toNat))
        else handle_proxy ctx method path headers none
    else if method ≠ "GET" ∧ method ≠ "HEAD" then
      ⟨method_not_allowed_chunks, [], [], none⟩
    else handle_proxy ctx method path headers none


/-! ## Helper lemmas -/

/-- Chunk is a `Set-Cookie` header line. -/
def isSetCookieHeader : Chunk → Bool
  | .header k _ => k == "Set-Cookie"
  | _ => false

/-- Chunk is a `Set-Cookie` header line whose value names `LastTarget`. -/
def isLastTargetCookieHeader : Chunk → Bool
  | .header k v => k == "Set-Cookie" && strStartsWith v (LAST_COOKIE_NAME ++ "=")
  | _ => false

/-- A concrete oracle environment for witnesses: no upstream is
    reachable, the client socket stays healthy. -/
def ctx0 : Ctx :=
  ⟨fun _ _ => .error ⟨.osError, "[Errno 111] Connection refused"⟩,
   fun _ _ _ => .error ⟨.osError, "[Errno 111] Connection refused"⟩,
   fun _ => false, fun _ => false⟩

/-! ## Claim theorems -/

/-- C6: `validate_target` returns a target exactly when the candidate
    string parses (via `urlparse`) with scheme `http` or `https` and a
    non-empty netloc, and then returns that parse result; every other
    string yields `none`. It is a pure function of its argument (it is a
    plain Lean function here), used by `handle_proxy` both for submitted
    targets and for the decoded `ProxyTarget` cookie. -/
theorem C6_validate_target_iff (url : String) (p : ParseResult) :
    validate_target url = some p ↔
      urlparse url "" = .ok p ∧ (p.scheme = "http" ∨ p.scheme = "https") ∧ p.netloc ≠ "" := by
  constructor
  · intro hv
    unfold validate_target at hv
    cases h : urlparse url "" with
    | error e => rw [h] at hv; cases hv
    | ok q =>
      rw [h] at hv
      dsimp only at hv
      by_cases hc : ¬ (q.scheme = "http" ∨ q.scheme = "https") ∨ q.netloc = ""
      · rw [if_pos hc] at hv; cases hv
      · rw [if_neg hc] at hv
        push_neg at hc
        injection hv with hv
        subst hv
        exact ⟨rfl, hc.1, hc.2⟩
  · rintro ⟨h, hcond, hn⟩
    unfold validate_target
    rw [h]
    dsimp only
    rw [if_neg (by push_neg; exact ⟨hcond, hn⟩)]


set_option maxRecDepth 4000 in
/-- Shape of the `/reset` response: status 200, default headers, HTML
    content type, the `ProxyTarget`-expiring cookie, the form length,
    blank line, form body. -/
theorem reset_chunks_eq (prefill : Option String) :
    reset_chunks prefill =
      [Chunk.status 200 "OK",
       Chunk.header "Server" USER_AGENT,
       Chunk.header "Connection" "close",
       Chunk.header "Content-Type" "text/html; charset=utf-8",
       Chunk.header "Set-Cookie" expired_proxy_cookie,
       Chunk.header "Content-Length" (toString (bytesLen (build_form_html prefill))),
       Chunk.blank,
       Chunk.strData (build_form_html prefill)] := rfl

set_option maxRecDepth 4000 in
/-- C5: every request whose path (before any query string) is `/reset`
    is answered 200 with the selection form (prefilled from a truthy
    `LastTarget` cookie), carries exactly one `Set-Cookie` header — the
    one expiring `ProxyTarget` — and no `Set-Cookie` naming
    `LastTarget`, so the `LastTarget` cookie is left untouched; no
    upstream fetch or stream is attempted. -/
theorem C5_reset_response (ctx : Ctx) (method path : String)
    (headers : List (String × String)) (body : Option (List Nat))
    (hpath : (splitOnceChar path '?').1 = "/reset") :
    (handle_proxy ctx method path headers body =
      ⟨reset_chunks
        (if optTruthy (dictGet? (parse_cookies (dictGetD headers "Cookie" "")) LAST_COOKIE_NAME) then
          some (unquote ((dictGet? (parse_cookies (dictGetD headers "Cookie" "")) LAST_COOKIE_NAME).getD ""))
         else none), [], [], none⟩) ∧
    (∀ prefill, (reset_chunks prefill).countP isSetCookieHeader = 1) ∧
    (∀ prefill, Chunk.header "Set-Cookie" expired_proxy_cookie ∈ reset_chunks prefill) ∧
    (∀ prefill, (reset_chunks prefill).countP isLastTargetCookieHeader = 0) ∧
    (∀ prefill, (reset_chunks prefill).head? = some (Chunk.status 200 "OK")) ∧
    (∀ prefill, Chunk.strData (build_form_html prefill) ∈ reset_chunks prefill) := by
  refine ⟨?_, fun prefill => rfl, fun prefill => ?_, fun prefill => rfl, fun prefill => rfl,
    fun prefill => ?_⟩
  · simp [handle_proxy, hpath]
  · rw [reset_chunks_eq]; simp
  · rw [reset_chunks_eq]; simp

set_option maxRecDepth 4000 in
/-- C5 witness: a concrete `/reset` request with a `LastTarget` cookie. -/
theorem C5_reset_response_witness :
    handle_proxy ctx0 "GET" "/reset" [("Cookie", "LastTarget=http%3A%2F%2Fa")] none =
      ⟨reset_chunks (some "http://a"), [], [], none⟩ :=
  (C5_reset_response ctx0 "GET" "/reset" [("Cookie", "LastTarget=http%3A%2F%2Fa")] none rfl).1


theorem find?_pred {α : Type} (p : α → Bool) (l : List α) (a : α)
    (h : l.find? p = some a) : p a = true ∧ a ∈ l := by
  induction l with
  | nil => cases h
  | cons x xs ih =>
    unfold List.find? at h
    cases hpx : p x with
    | true => rw [hpx] at h; injection h with h; subst h; exact ⟨hpx, List.mem_cons_self x xs⟩
    | false =>
      rw [hpx] at h
      obtain ⟨h1, h2⟩ := ih h
      exact ⟨h1, List.mem_cons_of_mem x h2⟩

theorem dictHas_of_get {α : Type} {d : List (String × α)} {k : String} {v : α}
    (h : dictGet? d k = some v) : dictHas d k = true := by
  unfold dictGet? at h
  unfold dictHas
  cases hf : d.find? (fun p => p.1 == k) with
  | none => rw [hf] at h; cases h
  | some q =>
    obtain ⟨h1, h2⟩ := find?_pred _ _ _ hf
    exact List.any_eq_true.mpr ⟨q, h2, h1⟩

set_option maxRecDepth 4000 in
/-- C1: a POST to `/` with a urlencoded form body whose `target` field
    validates, on a session with no cookies, is answered with exactly a
    303 redirect to `/`, the default headers, two `Set-Cookie` headers
    setting `ProxyTarget` and `LastTarget` to the URL-encoded submitted
    target, `Content-Length: 0` and no body bytes after the blank line;
    no upstream fetch and no streaming connection happens. -/
theorem C1_post_selection_redirect (ctx : Ctx) (hdrs : List (String × String))
    (bodyB : List Nat) (bodyStr nt : String) (vrest : List String) (parsed : ParseResult)
    (hnoc : dictGetD hdrs "Cookie" "" = "")
    (hct : strStartsWith (dictGetD hdrs "Content-Type" "") "application/x-www-form-urlencoded" = true)
    (hb : bodyB ≠ [])
    (hdec : utf8DecodeStrict bodyB = some bodyStr)
    (htgt : dictGet? (parse_qs bodyStr true) "target" = some (nt :: vrest))
    (hnt : nt ≠ "")
    (hval : validate_target nt = some parsed) :
    handle_proxy ctx "POST" "/" hdrs (some bodyB) =
      ⟨[Chunk.status 303 "See Other",
        Chunk.header "Server" USER_AGENT,
        Chunk.header "Connection" "close",
        Chunk.header "Location" "/",
        Chunk.header "Set-Cookie" (COOKIE_NAME ++ "=" ++ quote nt "" ++ "; Path=/; HttpOnly"),
        Chunk.header "Set-Cookie" (LAST_COOKIE_NAME ++ "=" ++ quote nt "" ++ "; Path=/; HttpOnly"),
        Chunk.header "Content-Length" "0",
        Chunk.blank], [], [], none⟩ ∧
    (handle_proxy ctx "POST" "/" hdrs (some bodyB)).chunks.countP isSetCookieHeader = 2 := by
  have hr : ("/" : String) ≠ "/reset" := by decide
  have hhas := dictHas_of_get htgt
  have hmain : handle_proxy ctx "POST" "/" hdrs (some bodyB) =
      ⟨[Chunk.status 303 "See Other",
        Chunk.header "Server" USER_AGENT,
        Chunk.header "Connection" "close",
        Chunk.header "Location" "/",
        Chunk.header "Set-Cookie" (COOKIE_NAME ++ "=" ++ quote nt "" ++ "; Path=/; HttpOnly"),
        Chunk.header "Set-Cookie" (LAST_COOKIE_NAME ++ "=" ++ quote nt "" ++ "; Path=/; HttpOnly"),
        Chunk.header "Content-Length" "0",
        Chunk.blank], [], [], none⟩ := by
    have hsp : splitOnceChar "/" '?' = ("/", none) := rfl
    have hpq : parse_qs "" false = [] := rfl
    have hdg : dictGet? ([] : List (String × List String)) "target" = none := rfl
    simp [handle_proxy, hsp, hpq, hdg, hr, hct, hb, hdec, htgt, hnt, hval, hhas,
      bytesTruthy, optTruthy, post_redirect_chunks, send_basic_headers, dictUpdate,
      dictSet, renderHeader, build_response_status]
  exact ⟨hmain, by rw [hmain]; rfl⟩

set_option maxRecDepth 4000 in
/-- C1 witness: submitting `target=http%3A%2F%2F10.0.0.5%3A8080`. -/
theorem C1_post_selection_redirect_witness :
    handle_proxy ctx0 "POST" "/" [("Content-Type", "application/x-www-form-urlencoded")]
        (some (strBytes "target=http%3A%2F%2F10.0.0.5%3A8080")) =
      ⟨[Chunk.status 303 "See Other",
        Chunk.header "Server" USER_AGENT,
        Chunk.header "Connection" "close",
        Chunk.header "Location" "/",
        Chunk.header "Set-Cookie" "ProxyTarget=http%3A%2F%2F10.0.0.5%3A8080; Path=/; HttpOnly",
        Chunk.header "Set-Cookie" "LastTarget=http%3A%2F%2F10.0.0.5%3A8080; Path=/; HttpOnly",
        Chunk.header "Content-Length" "0",
        Chunk.blank], [], [], none⟩ :=
  (C1_post_selection_redirect ctx0 [("Content-Type", "application/x-www-form-urlencoded")]
    (strBytes "target=http%3A%2F%2F10.0.0.5%3A8080") "target=http%3A%2F%2F10.0.0.5%3A8080"
    "http://10.0.0.5:8080" [] ⟨"http", "10.0.0.5:8080", "", "", "", ""⟩
    rfl rfl (by decide) rfl rfl (by decide) rfl).1


theorem takeWhile_ne_of_not_mem {l : List Char} {c : Char} (h : ∀ d ∈ l, d ≠ c) :
    (l.takeWhile (fun d => d ≠ c)) = l := by
  induction l with
  | nil => rfl
  | cons x xs ih =>
    have hx : x ≠ c := h x (List.mem_cons_self x xs)
    simp only [List.takeWhile_cons]
    rw [if_pos (decide_eq_true hx), ih (fun d hd => h d (List.mem_cons_of_mem x hd))]

theorem splitOnceChar_of_not_contains {s : String} {c : Char}
    (h : strContainsChar s c = false) : splitOnceChar s c = (s, none) := by
  have hm : ∀ d ∈ s.data, d ≠ c := by
    intro d hd hdc
    subst hdc
    unfold strContainsChar at h
    rw [List.any_eq_true.mpr ⟨d, hd, by simp⟩] at h
    cases h
  unfold splitOnceChar
  rw [takeWhile_ne_of_not_mem hm, if_pos rfl]

/-- C7: the Protocol Reader fails with the `ConnectionError` when the
    stream yields nothing, fails with the malformed-request `ValueError`
    when the request line does not split into exactly three tokens,
    silently skips header lines without a colon, and fails with the
    headers-too-large `ValueError` as soon as the cumulative header
    bytes exceed 32 KiB. -/
theorem C7_protocol_reader :
    (read_request [] = .error ⟨.connectionError, "Empty request line"⟩) ∧
    (∀ ls : List (List Nat),
      read_request ([] :: ls) = .error ⟨.connectionError, "Empty request line"⟩) ∧
    (∀ (line : List Nat) (ls : List (List Nat)), line ≠ [] →
      (pySplit (pyStrip (utf8DecodeIgnore line))).length ≠ 3 →
      read_request (line :: ls) = .error ⟨.valueError, "Malformed request line"⟩) ∧
    (∀ (line : List Nat) (restL : List (List Nat)) (total : Nat) (hdrs : List (String × String)),
      line ≠ [] → line ≠ [13, 10] → line ≠ [10] →
      strContainsChar (utf8DecodeIgnore line) ':' = false →
      total + line.length ≤ MAX_HEADER_SIZE →
      read_headers (line :: restL) total hdrs = read_headers restL (total + line.length) hdrs) ∧
    (∀ (line : List Nat) (restL : List (List Nat)) (total : Nat) (hdrs : List (String × String)),
      line ≠ [] → line ≠ [13, 10] → line ≠ [10] →
      MAX_HEADER_SIZE < total + line.length →
      read_headers (line :: restL) total hdrs = .error ⟨.valueError, "Headers too large"⟩) := by
  refine ⟨rfl, fun ls => rfl, ?_, ?_, ?_⟩
  · intro line ls hne hlen
    unfold read_request
    dsimp only
    rw [if_neg hne]
    split
    · rename_i m p v heq
      rw [heq] at hlen
      simp at hlen
    · rfl
  · intro line restL total hdrs h1 h2 h3 hcolon hle
    conv_lhs => rw [read_headers.eq_def]
    dsimp only
    rw [if_neg (by simp [h1, h2, h3]), if_neg (by omega),
      splitOnceChar_of_not_contains hcolon]
  · intro line restL total hdrs h1 h2 h3 hgt
    unfold read_headers
    rw [if_neg (by simp [h1, h2, h3]), if_pos hgt]

/-- C7 witness: an empty stream, a one-token request line, a skipped
    colon-free header line, and a header-size overflow. -/
theorem C7_protocol_reader_witness :
    read_request [] = .error ⟨.connectionError, "Empty request line"⟩ ∧
    read_request [strBytes "GETINDEX\r\n"] = .error ⟨.valueError, "Malformed request line"⟩ ∧
    read_headers [strBytes "no colon here\r\n"] 0 [] =
      read_headers [] (strBytes "no colon here\r\n").length [] ∧
    read_headers [[65, 65]] 32767 [] = .error ⟨.valueError, "Headers too large"⟩ :=
  ⟨C7_protocol_reader.1,
   C7_protocol_reader.2.2.1 (strBytes "GETINDEX\r\n") [] (by decide) (by decide),
   C7_protocol_reader.2.2.2.1 (strBytes "no colon here\r\n") [] 0 [] (by decide) (by decide)
     (by decide) (by decide) (by decide),
   C7_protocol_reader.2.2.2.2 [65, 65] [] 32767 [] (by decide) (by decide) (by decide)
     (by decide)⟩

/-- C10: the request method is uppercased by the Protocol Reader before
    dispatch (so lowercase spellings are accepted); `handle_proxy`
    treats `HEAD` exactly like `GET` (full body writes included); and a
    parsed `HEAD` request flows into `handle_proxy` rather than the 405
    branch of `client_handler`. -/
theorem C10_head_like_get :
    (∀ (line : List Nat) (ls : List (List Nat)) (m p v : String) (hs : List (String × String)),
      line ≠ [] →
      pySplit (pyStrip (utf8DecodeIgnore line)) = [m, p, v] →
      read_headers ls 0 [] = .ok hs →
      read_request (line :: ls) = .ok (pyUpper m, p, v, hs)) ∧
    (∀ (ctx : Ctx) (path : String) (headers : List (String × String)) (body : Option (List Nat)),
      handle_proxy ctx "HEAD" path headers body = handle_proxy ctx "GET" path headers body) ∧
    (∀ (ctx : Ctx) (stream : InStream) (path ver : String) (headers : List (String × String)),
      read_request stream.lines = .ok ("HEAD", path, ver, headers) →
      client_handler ctx stream = handle_proxy ctx "HEAD" path headers none) := by
  refine ⟨?_, ?_, ?_⟩
  · intro line ls m p v hs hne hsp hhd
    unfold read_request
    dsimp only
    rw [if_neg hne, hsp]
    dsimp only
    rw [hhd]
  · intro ctx path headers body
    have hh : ("HEAD" : String) ≠ "POST" := by decide
    have hg : ("GET" : String) ≠ "POST" := by decide
    simp [handle_proxy, hh, hg]
  · intro ctx stream path ver headers hread
    unfold client_handler
    rw [hread]
    dsimp only
    rw [if_neg (by decide), if_neg (by decide)]

/-- C10 witness: a lowercase `head` request line is uppercased, and a
    concrete `HEAD` request takes the same pipeline as `GET`. -/
theorem C10_head_like_get_witness :
    read_request [strBytes "head / HTTP/1.1\r\n"] = .ok ("HEAD", "/", "HTTP/1.1", []) ∧
    handle_proxy ctx0 "HEAD" "/" [] none = handle_proxy ctx0 "GET" "/" [] none ∧
    client_handler ctx0 ⟨[strBytes "HEAD / HTTP/1.1\r\n"], []⟩ =
      handle_proxy ctx0 "HEAD" "/" [] none :=
  ⟨C10_head_like_get.1 (strBytes "head / HTTP/1.1\r\n") [] "head" "/" "HTTP/1.1" []
     (by decide) rfl rfl,
   C10_head_like_get.2.1 ctx0 "/" [] none,
   C10_head_like_get.2.2 ctx0 ⟨[strBytes "HEAD / HTTP/1.1\r\n"], []⟩ "/" "HTTP/1.1" [] rfl⟩

theorem read_headers_error {ls : List (List Nat)} {total : Nat}
    {hdrs : List (String × String)} {e : PyErr}
    (h : read_headers ls total hdrs = .error e) : e = ⟨.valueError, "Headers too large"⟩ := by
  induction ls generalizing total hdrs with
  | nil => cases h
  | cons line rest ih =>
    unfold read_headers at h
    by_cases h1 : line = [] ∨ line = [13, 10] ∨ line = [10]
    · rw [if_pos h1] at h; cases h
    · rw [if_neg h1] at h
      by_cases h2 : MAX_HEADER_SIZE < total + line.length
      · rw [if_pos h2] at h
        injection h with h
        exact h.symm
      · rw [if_neg h2] at h
        cases hsp : splitOnceChar (utf8DecodeIgnore line) ':' with
        | mk k vo =>
          rw [hsp] at h
          cases vo with
          | none => exact ih h
          | some v => exact ih h

theorem read_request_error_kind {lines : List (List Nat)} {e : PyErr}
    (h : read_request lines = .error e) :
    e.kind = .valueError ∨ e.kind = .connectionError := by
  cases lines with
  | nil =>
    injection h with h
    rw [← h]
    right; rfl
  | cons line rest =>
    unfold read_request at h
    dsimp only at h
    by_cases h1 : line = []
    · rw [if_pos h1] at h
      injection h with h
      rw [← h]
      right; rfl
    · rw [if_neg h1] at h
      split at h
      · rename_i m p v heq
        cases hh : read_headers rest 0 [] with
        | error e2 =>
          rw [hh] at h
          injection h with h
          rw [← h, read_headers_error hh]
          left; rfl
        | ok hs =>
          rw [hh] at h
          cases h
      · injection h with h
        rw [← h]
        left; rfl

/-- C9 counterexample: a POST whose `Content-Length` header is the
    non-numeric `abc` makes `int()` raise *outside* every try block of
    `client_handler`: the exception escapes the handler and not a single
    byte of any HTTP response is written, contradicting the claim that
    every failure is converted to a best-effort HTTP error response. -/
theorem C9_counterexample :
    client_handler ctx0
        ⟨[strBytes "POST / HTTP/1.1\r\n", strBytes "Content-Length: abc\r\n", strBytes "\r\n"], []⟩ =
      ⟨[], [], [], some ⟨.valueError, "invalid literal for int() with base 10: abc"⟩⟩ ∧
    (client_handler ctx0
        ⟨[strBytes "POST / HTTP/1.1\r\n", strBytes "Content-Length: abc\r\n", strBytes "\r\n"], []⟩).chunks
      = [] := by
  exact ⟨rfl, rfl⟩

/-- C9 amended: failures raised while reading and parsing the request
    line and headers are caught at the `client_handler` boundary and
    answered with a 400 response (nothing escapes); but a POST whose
    `Content-Length` value does not parse as an integer raises an
    uncaught `ValueError` out of the handler with no response bytes
    written at all. -/
theorem C9_supervisor_amended :
    (∀ (ctx : Ctx) (stream : InStream) (e : PyErr),
      read_request stream.lines = .error e →
      client_handler ctx stream = ⟨bad_request_chunks, [], [], none⟩) ∧
    (∀ (ctx : Ctx) (stream : InStream) (path ver : String) (headers : List (String × String)),
      read_request stream.lines = .ok ("POST", path, ver, headers) →
      pyInt? (if dictGetD headers "Content-Length" "0" ≠ "" then
          dictGetD headers "Content-Length" "0" else "0") = none →
      client_handler ctx stream =
        ⟨[], [], [], some ⟨.valueError, "invalid literal for int() with base 10: " ++
          (if dictGetD headers "Content-Length" "0" ≠ "" then
            dictGetD headers "Content-Length" "0" else "0")⟩⟩) := by
  constructor
  · intro ctx stream e hread
    unfold client_handler
    rw [hread]
    dsimp only
    rw [if_pos (read_request_error_kind hread)]
  · intro ctx stream path ver headers hread hint
    unfold client_handler
    rw [hread]
    dsimp only
    rw [if_pos rfl, hint]

/-- C9 amended witness: a garbled request line gets a 400; the
    non-numeric `Content-Length` POST escapes with a `ValueError`. -/
theorem C9_supervisor_amended_witness :
    client_handler ctx0 ⟨[strBytes "GARBAGE\r\n"], []⟩ = ⟨bad_request_chunks, [], [], none⟩ ∧
    client_handler ctx0
        ⟨[strBytes "POST / HTTP/1.1\r\n", strBytes "Content-Length: abc\r\n", strBytes "\r\n"], []⟩ =
      ⟨[], [], [], some ⟨.valueError, "invalid literal for int() with base 10: abc"⟩⟩ :=
  ⟨C9_supervisor_amended.1 ctx0 ⟨[strBytes "GARBAGE\r\n"], []⟩
     ⟨.valueError, "Malformed request line"⟩ rfl,
   C9_supervisor_amended.2 ctx0
     ⟨[strBytes "POST / HTTP/1.1\r\n", strBytes "Content-Length: abc\r\n", strBytes "\r\n"], []⟩
     "/" "HTTP/1.1" [("Content-Length", "abc")] rfl rfl⟩


theorem find?_map_replace {α : Type} (k : String) (v : α) :
    ∀ (d : List (String × α)), d.any (fun p => p.1 == k) = true →
      (d.map (fun p => if p.1 == k then (k, v) else p)).find? (fun p => p.1 == k) = some (k, v) := by
  intro d
  induction d with
  | nil => intro h; simp at h
  | cons q t ih =>
    intro h
    simp only [List.map_cons]
    by_cases hq : (q.1 == k) = true
    · rw [if_pos hq, List.find?_cons_of_pos _ (by simp)]
    · rw [if_neg hq, List.find?_cons_of_neg _ (by simp [hq])]
      have ht : t.any (fun p => p.1 == k) = true := by
        rcases List.any_eq_true.mp h with ⟨p, hp, hpk⟩
        rcases List.mem_cons.mp hp with h1 | h1
        · subst h1; exact absurd hpk hq
        · exact List.any_eq_true.mpr ⟨p, h1, hpk⟩
      exact ih ht

theorem dictGet?_dictSet_self {α : Type} (d : List (String × α)) (k : String) (v : α) :
    dictGet? (dictSet d k v) k = some v := by
  unfold dictGet? dictSet
  by_cases h : d.any (fun p => p.1 == k) = true
  · rw [if_pos h, find?_map_replace k v d h]
    rfl
  · rw [if_neg h, List.find?_append]
    have hnone : d.find? (fun p => p.1 == k) = none := by
      rw [List.find?_eq_none]
      intro x hx hpx
      exact h (List.any_eq_true.mpr ⟨x, hx, hpx⟩)
    rw [hnone]
    simp

theorem mem_dictSet {α : Type} {d : List (String × α)} {k' : String} {v' : α}
    {k : String} {v : α} (h : (k, v) ∈ dictSet d k' v') : (k, v) ∈ d ∨ k = k' := by
  unfold dictSet at h
  by_cases ha : d.any (fun p => p.1 == k') = true
  · rw [if_pos ha] at h
    rcases List.mem_map.mp h with ⟨p, hp, hpe⟩
    by_cases hq : (p.1 == k') = true
    · rw [if_pos hq] at hpe
      right
      exact (Prod.mk.injEq _ _ _ _ ▸ hpe).1.symm
    · rw [if_neg hq] at hpe
      left
      exact hpe ▸ hp
  · rw [if_neg ha] at h
    rcases List.mem_append.mp h with h1 | h1
    · left; exact h1
    · right
      have := List.mem_singleton.mp h1
      exact (Prod.mk.injEq _ _ _ _ ▸ this).1

theorem mem_foldl_filtered {hs : List (String × String)} :
    ∀ (acc : List (String × HVal)) (k : String) (v : HVal),
      (k, v) ∈ hs.foldl
        (fun d p =>
          if pyLower p.1 = "connection" ∨ pyLower p.1 = "transfer-encoding" then d
          else dictSet d p.1 (HVal.str p.2)) acc →
      (k, v) ∈ acc ∨
        ∃ p ∈ hs, ¬ (pyLower p.1 = "connection" ∨ pyLower p.1 = "transfer-encoding") ∧ k = p.1 := by
  induction hs with
  | nil => intro acc k v h; left; exact h
  | cons q t ih =>
    intro acc k v h
    simp only [List.foldl_cons] at h
    by_cases hq : pyLower q.1 = "connection" ∨ pyLower q.1 = "transfer-encoding"
    · rw [if_pos hq] at h
      rcases ih _ _ _ h with h1 | ⟨p, hp, hc, he⟩
      · left; exact h1
      · right; exact ⟨p, List.mem_cons_of_mem _ hp, hc, he⟩
    · rw [if_neg hq] at h
      rcases ih _ _ _ h with h1 | ⟨p, hp, hc, he⟩
      · rcases mem_dictSet h1 with h2 | h2
        · left; exact h2
        · right; exact ⟨q, List.mem_cons_self _ _, hq, h2⟩
      · right; exact ⟨p, List.mem_cons_of_mem _ hp, hc, he⟩

theorem build_resp_block_no_excluded (hd : List (String × String)) (n : Nat)
    (cts lcc : Option String) (sel : ParseResult) :
    ∀ k v, (k, v) ∈ build_resp_block hd n cts lcc sel →
      pyLower k ≠ "connection" ∧ pyLower k ≠ "transfer-encoding" := by
  intro k v h
  unfold build_resp_block at h
  have hblock1 : ∀ w, (k, w) ∈ dictSet (hd.foldl
      (fun d p =>
        if pyLower p.1 = "connection" ∨ pyLower p.1 = "transfer-encoding" then d
        else dictSet d p.1 (HVal.str p.2)) []) "Content-Length" (HVal.str (toString n)) →
      pyLower k ≠ "connection" ∧ pyLower k ≠ "transfer-encoding" := by
    intro w hw
    rcases mem_dictSet hw with h1 | h1
    · rcases mem_foldl_filtered _ _ _ h1 with h2 | ⟨p, _, hc, he⟩
      · cases h2
      · rw [he]
        push_neg at hc
        exact hc
    · rw [h1]
      exact ⟨by decide, by decide⟩
  cases cts with
  | none => exact hblock1 v h
  | some c =>
    dsimp only at h
    rcases mem_dictSet h with h1 | h1
    · exact hblock1 v h1
    · rw [h1]
      exact ⟨by decide, by decide⟩

theorem build_resp_block_content_length (hd : List (String × String)) (n : Nat)
    (lcc : Option String) (sel : ParseResult) :
    dictGet? (build_resp_block hd n none lcc sel) "Content-Length" =
      some (HVal.str (toString n)) := by
  unfold build_resp_block
  exact dictGet?_dictSet_self _ _ _

/-- Reduction of `handle_proxy` for a request with no query string, a
    non-reset path and no body: it either serves the selection form or
    forwards using the decoded `ProxyTarget` cookie. -/
theorem handle_proxy_get_no_new_target (ctx : Ctx) (method path : String)
    (hdrs : List (String × String))
    (hq : (splitOnceChar path '?').2 = none)
    (hres : (splitOnceChar path '?').1 ≠ "/reset") :
    handle_proxy ctx method path hdrs none =
      (match (if optTruthy (dictGet? (parse_cookies (dictGetD hdrs "Cookie" "")) COOKIE_NAME) then
          validate_target (unquote ((dictGet? (parse_cookies (dictGetD hdrs "Cookie" "")) COOKIE_NAME).getD ""))
        else none) with
      | none =>
        ⟨selection_form_chunks
          (if optTruthy (dictGet? (parse_cookies (dictGetD hdrs "Cookie" "")) LAST_COOKIE_NAME) ∧
              ¬ optTruthy (dictGet? (parse_cookies (dictGetD hdrs "Cookie" "")) COOKIE_NAME) then
            some (unquote ((dictGet? (parse_cookies (dictGetD hdrs "Cookie" "")) LAST_COOKIE_NAME).getD ""))
          else none), [], [], none⟩
      | some sel =>
        forward_section ctx sel none none
          (dictGet? (parse_cookies (dictGetD hdrs "Cookie" "")) LAST_COOKIE_NAME)
          (splitOnceChar path '?').1 "") := by
  have hpq : parse_qs "" false = [] := rfl
  have hdg : dictGet? ([] : List (String × List String)) "target" = none := rfl
  simp [handle_proxy, hq, hres, hpq, hdg, bytesTruthy, optTruthy]

set_option maxRecDepth 4000 in
/-- C2: a GET with a valid `ProxyTarget` cookie on a non-streaming path
    whose buffered fetch succeeds with status 200 relays status 200 with
    the upstream reason, a header block in which `Content-Length` is the
    length of the (size-capped) fetched body, the blank line and exactly
    that body; the upstream `Connection`/`Transfer-Encoding` headers are
    never copied into the relayed header block, and `Content-Length` in
    the relayed block is exactly the body length. -/
theorem C2_buffered_success (ctx : Ctx) (path : String) (hdrs : List (String × String))
    (c : String) (parsed : ParseResult) (rp reason : String)
    (up_hdrs : List (String × String)) (B0 : List Nat)
    (hq : (splitOnceChar path '?').2 = none)
    (hres : (splitOnceChar path '?').1 ≠ "/reset")
    (hck : dictGet? (parse_cookies (dictGetD hdrs "Cookie" "")) COOKIE_NAME = some c)
    (hcne : c ≠ "")
    (hval : validate_target (unquote c) = some parsed)
    (hcp : combine_paths parsed ((splitOnceChar path '?').1) = Except.ok rp)
    (hmj : strEndsWith (pyLower rp) ".mjpeg" = false)
    (hnet : ctx.net parsed.netloc (fetchTargetPath parsed (some rp)) =
      .ok (200, reason, up_hdrs, B0)) :
    (handle_proxy ctx "GET" path hdrs none =
      ⟨Chunk.status 200 reason ::
         send_basic_headers
           (build_resp_block (dictFromPairs up_hdrs) (B0.take MAX_BODY_SIZE).length none
             (dictGet? (parse_cookies (dictGetD hdrs "Cookie" "")) LAST_COOKIE_NAME) parsed) ++
         [Chunk.blank, Chunk.byteData (B0.take MAX_BODY_SIZE)],
       [(parsed.netloc, fetchTargetPath parsed (some rp))], [], none⟩) ∧
    (∀ (hd : List (String × String)) (n : Nat) (cts lcc : Option String) (sel : ParseResult)
       (k : String) (v : HVal), (k, v) ∈ build_resp_block hd n cts lcc sel →
       pyLower k ≠ "connection" ∧ pyLower k ≠ "transfer-encoding") ∧
    (∀ (hd : List (String × String)) (n : Nat) (lcc : Option String) (sel : ParseResult),
       dictGet? (build_resp_block hd n none lcc sel) "Content-Length" =
         some (HVal.str (toString n))) := by
  refine ⟨?_, fun hd n cts lcc sel k v h => build_resp_block_no_excluded hd n cts lcc sel k v h,
    fun hd n lcc sel => build_resp_block_content_length hd n lcc sel⟩
  rw [handle_proxy_get_no_new_target ctx "GET" path hdrs hq hres, hck]
  simp only [optTruthy, Option.getD_some]
  rw [if_pos (by simp [hcne]), hval]
  dsimp only
  simp [forward_section, hcp, hmj, fetch_via_httpclient, hnet, build_response_status]

/-- Oracle for the C2 witness: the upstream answers 200 `OK` with two
    body bytes and headers including `Connection`/`Transfer-Encoding`. -/
def ctxC2 : Ctx :=
  ⟨fun _ _ => .ok (200, "OK",
      [("Content-Type", "text/html"), ("Connection", "keep-alive"), ("Transfer-Encoding", "chunked")],
      [104, 105]),
   fun _ _ _ => .error ⟨.osError, "no stream"⟩, fun _ => false, fun _ => false⟩

set_option maxRecDepth 4000 in
/-- C2 witness: cookie `ProxyTarget=http%3A%2F%2F10.0.0.5%3A8080`, GET
    `/`, upstream answering 200 with two body bytes and headers that
    include `Connection` and `Transfer-Encoding`. -/
theorem C2_buffered_success_witness :
    handle_proxy ctxC2 "GET" "/" [("Cookie", "ProxyTarget=http%3A%2F%2F10.0.0.5%3A8080")] none =
      ⟨Chunk.status 200 "OK" ::
         send_basic_headers
           (build_resp_block
             (dictFromPairs [("Content-Type", "text/html"), ("Connection", "keep-alive"),
               ("Transfer-Encoding", "chunked")])
             ([104, 105] : List Nat).length none none ⟨"http", "10.0.0.5:8080", "", "", "", ""⟩) ++
         [Chunk.blank, Chunk.byteData [104, 105]],
       [("10.0.0.5:8080", "/")], [], none⟩ :=
  (C2_buffered_success ctxC2 "/" [("Cookie", "ProxyTarget=http%3A%2F%2F10.0.0.5%3A8080")]
    "http%3A%2F%2F10.0.0.5%3A8080" ⟨"http", "10.0.0.5:8080", "", "", "", ""⟩ "/" "OK"
    [("Content-Type", "text/html"), ("Connection", "keep-alive"), ("Transfer-Encoding", "chunked")]
    [104, 105] rfl (by decide) rfl (by decide) rfl rfl rfl rfl).1


set_option maxRecDepth 4000 in
/-- C3: a buffered forward whose upstream connection fails with a
    caught transport error answers 502 with exactly one `Set-Cookie`
    header — the one expiring `ProxyTarget` — and no `Set-Cookie`
    naming `LastTarget`; and every request carrying no truthy
    `ProxyTarget` cookie (and no submitted target) is served the
    selection form with no fetch and no stream attempt. -/
theorem C3_transport_failure_clears_cookie (ctx : Ctx) (path : String)
    (hdrs : List (String × String)) (c : String) (parsed : ParseResult) (rp : String)
    (e : PyErr)
    (hq : (splitOnceChar path '?').2 = none)
    (hres : (splitOnceChar path '?').1 ≠ "/reset")
    (hck : dictGet? (parse_cookies (dictGetD hdrs "Cookie" "")) COOKIE_NAME = some c)
    (hcne : c ≠ "")
    (hval : validate_target (unquote c) = some parsed)
    (hcp : combine_paths parsed ((splitOnceChar path '?').1) = Except.ok rp)
    (hmj : strEndsWith (pyLower rp) ".mjpeg" = false)
    (hnet : ctx.net parsed.netloc (fetchTargetPath parsed (some rp)) = .error e)
    (hkind : fetchCaught e.kind = true) :
    (handle_proxy ctx "GET" path hdrs none =
      ⟨[Chunk.status 502 "Bad Gateway",
        Chunk.header "Server" USER_AGENT,
        Chunk.header "Connection" "close",
        Chunk.header "Content-Type" "text/plain",
        Chunk.header "Set-Cookie" expired_proxy_cookie,
        Chunk.strData ("Content-Length: " ++ toString (bytesLen ("Remote fetch failed: " ++ e.msg)) ++ "\r\n\r\n"),
        Chunk.strData ("Remote fetch failed: " ++ e.msg)],
       [(parsed.netloc, fetchTargetPath parsed (some rp))], [], none⟩) ∧
    ((handle_proxy ctx "GET" path hdrs none).chunks.countP isSetCookieHeader = 1) ∧
    ((handle_proxy ctx "GET" path hdrs none).chunks.countP isLastTargetCookieHeader = 0) ∧
    (∀ (ctx2 : Ctx) (method2 path2 : String) (hdrs2 : List (String × String)),
      (splitOnceChar path2 '?').2 = none →
      (splitOnceChar path2 '?').1 ≠ "/reset" →
      optTruthy (dictGet? (parse_cookies (dictGetD hdrs2 "Cookie" "")) COOKIE_NAME) = false →
      handle_proxy ctx2 method2 path2 hdrs2 none =
        ⟨selection_form_chunks
          (if optTruthy (dictGet? (parse_cookies (dictGetD hdrs2 "Cookie" "")) LAST_COOKIE_NAME) then
            some (unquote ((dictGet? (parse_cookies (dictGetD hdrs2 "Cookie" "")) LAST_COOKIE_NAME).getD ""))
          else none), [], [], none⟩) := by
  have hmain : handle_proxy ctx "GET" path hdrs none =
      ⟨[Chunk.status 502 "Bad Gateway",
        Chunk.header "Server" USER_AGENT,
        Chunk.header "Connection" "close",
        Chunk.header "Content-Type" "text/plain",
        Chunk.header "Set-Cookie" expired_proxy_cookie,
        Chunk.strData ("Content-Length: " ++ toString (bytesLen ("Remote fetch failed: " ++ e.msg)) ++ "\r\n\r\n"),
        Chunk.strData ("Remote fetch failed: " ++ e.msg)],
       [(parsed.netloc, fetchTargetPath parsed (some rp))], [], none⟩ := by
    rw [handle_proxy_get_no_new_target ctx "GET" path hdrs hq hres, hck]
    simp only [optTruthy, Option.getD_some]
    rw [if_pos (by simp [hcne]), hval]
    dsimp only
    simp [forward_section, hcp, hmj, fetch_via_httpclient, hnet, hkind,
      bad_gateway_chunks, send_basic_headers, dictUpdate, dictSet, renderHeader,
      build_response_status]
  refine ⟨hmain, by rw [hmain]; rfl, by rw [hmain]; rfl, ?_⟩
  intro ctx2 method2 path2 hdrs2 hq2 hres2 hck2
  rw [handle_proxy_get_no_new_target ctx2 method2 path2 hdrs2 hq2 hres2, hck2]
  simp

set_option maxRecDepth 4000 in
/-- C3 witness: a concrete connection-refused fetch followed by a
    concrete cookie-less request that gets the plain form. -/
theorem C3_transport_failure_clears_cookie_witness :
    handle_proxy ctx0 "GET" "/" [("Cookie", "ProxyTarget=http%3A%2F%2F10.0.0.5%3A8080")] none =
      ⟨[Chunk.status 502 "Bad Gateway",
        Chunk.header "Server" USER_AGENT,
        Chunk.header "Connection" "close",
        Chunk.header "Content-Type" "text/plain",
        Chunk.header "Set-Cookie" expired_proxy_cookie,
        Chunk.strData ("Content-Length: " ++ toString (bytesLen ("Remote fetch failed: [Errno 111] Connection refused")) ++ "\r\n\r\n"),
        Chunk.strData ("Remote fetch failed: [Errno 111] Connection refused")],
       [("10.0.0.5:8080", "/")], [], none⟩ ∧
    handle_proxy ctx0 "GET" "/" [] none = ⟨selection_form_chunks none, [], [], none⟩ :=
  ⟨(C3_transport_failure_clears_cookie ctx0 "/"
      [("Cookie", "ProxyTarget=http%3A%2F%2F10.0.0.5%3A8080")]
      "http%3A%2F%2F10.0.0.5%3A8080" ⟨"http", "10.0.0.5:8080", "", "", "", ""⟩ "/"
      ⟨.osError, "[Errno 111] Connection refused"⟩
      rfl (by decide) rfl (by decide) rfl rfl rfl rfl rfl).1,
   (C3_transport_failure_clears_cookie ctx0 "/"
      [("Cookie", "ProxyTarget=http%3A%2F%2F10.0.0.5%3A8080")]
      "http%3A%2F%2F10.0.0.5%3A8080" ⟨"http", "10.0.0.5:8080", "", "", "", ""⟩ "/"
      ⟨.osError, "[Errno 111] Connection refused"⟩
      rfl (by decide) rfl (by decide) rfl rfl rfl rfl rfl).2.2.2 ctx0 "GET" "/" [] rfl
      (by decide) rfl⟩

set_option maxRecDepth 16000 in
/-- C8 counterexample: with cookies `ProxyTarget=%3A%3Abad` (invalid,
    non-validating) and `LastTarget=http%3A%2F%2Fexample.com`, the form
    is served with no prefill — `prefill` requires the `ProxyTarget`
    cookie to be absent — although the claim demands the `LastTarget`
    prefill in exactly this situation; the two form bodies differ. -/
theorem C8_counterexample :
    handle_proxy ctx0 "GET" "/"
        [("Cookie", "ProxyTarget=%3A%3Abad; LastTarget=http%3A%2F%2Fexample.com")] none =
      ⟨selection_form_chunks none, [], [], none⟩ ∧
    build_form_html none ≠ build_form_html (some "http://example.com") := by
  constructor
  · rfl
  · intro h
    have := congrArg (fun s => s.data.length) h
    simp only [] at this
    revert this
    decide

set_option maxRecDepth 4000 in
/-- C8 amended: the selection form is served whenever no valid target
    is selected, but it is prefilled from `LastTarget` only when no
    `ProxyTarget` cookie value is present at all; with a non-empty
    invalid `ProxyTarget` cookie the form is served without prefill. -/
theorem C8_no_selection_form_amended :
    (∀ (ctx : Ctx) (method path : String) (hdrs : List (String × String)) (l : String),
      (splitOnceChar path '?').2 = none →
      (splitOnceChar path '?').1 ≠ "/reset" →
      optTruthy (dictGet? (parse_cookies (dictGetD hdrs "Cookie" "")) COOKIE_NAME) = false →
      dictGet? (parse_cookies (dictGetD hdrs "Cookie" "")) LAST_COOKIE_NAME = some l →
      l ≠ "" →
      handle_proxy ctx method path hdrs none =
        ⟨selection_form_chunks (some (unquote l)), [], [], none⟩) ∧
    (∀ (ctx : Ctx) (method path : String) (hdrs : List (String × String)) (t : String),
      (splitOnceChar path '?').2 = none →
      (splitOnceChar path '?').1 ≠ "/reset" →
      dictGet? (parse_cookies (dictGetD hdrs "Cookie" "")) COOKIE_NAME = some t →
      t ≠ "" →
      validate_target (unquote t) = none →
      handle_proxy ctx method path hdrs none =
        ⟨selection_form_chunks none, [], [], none⟩) := by
  constructor
  · intro ctx method path hdrs l hq hres hck hlast hlne
    rw [handle_proxy_get_no_new_target ctx method path hdrs hq hres, hck]
    simp [hlast, optTruthy, hlne]
  · intro ctx method path hdrs t hq hres hck htne hinv
    rw [handle_proxy_get_no_new_target ctx method path hdrs hq hres, hck]
    simp only [optTruthy, Option.getD_some]
    rw [if_pos (by simp [htne]), hinv]
    simp [optTruthy, htne]

set_option maxRecDepth 4000 in
/-- C8 amended witness: prefill happens with `LastTarget` alone; no
    prefill with an invalid `ProxyTarget` cookie present. -/
theorem C8_no_selection_form_amended_witness :
    handle_proxy ctx0 "GET" "/" [("Cookie", "LastTarget=http%3A%2F%2Fexample.com")] none =
      ⟨selection_form_chunks (some "http://example.com"), [], [], none⟩ ∧
    handle_proxy ctx0 "GET" "/"
        [("Cookie", "ProxyTarget=%3A%3Abad; LastTarget=http%3A%2F%2Fexample.com")] none =
      ⟨selection_form_chunks none, [], [], none⟩ :=
  ⟨C8_no_selection_form_amended.1 ctx0 "GET" "/"
     [("Cookie", "LastTarget=http%3A%2F%2Fexample.com")] "http%3A%2F%2Fexample.com"
     rfl (by decide) rfl rfl (by decide),
   C8_no_selection_form_amended.2 ctx0 "GET" "/"
     [("Cookie", "ProxyTarget=%3A%3Abad; LastTarget=http%3A%2F%2Fexample.com")] "%3A%3Abad"
     rfl (by decide) rfl (by decide) rfl⟩


/-- Oracle for the C4 counterexample: the streaming upstream accepts,
    answers 200 with a multipart header block, sends one 3-byte chunk
    and then resets the connection (the read raises). -/
def ctxC4 : Ctx :=
  ⟨fun _ _ => .error ⟨.osError, "no fetch"⟩,
   fun _ _ _ => .ok ⟨strBytes "HTTP/1.1 200 OK\r\n",
     [strBytes "Content-Type: multipart/x-mixed-replace\r\n", strBytes "Content-Length: 999\r\n"],
     [.chunk [1, 2, 3], .rerr ⟨.osError, "Connection reset by peer"⟩]⟩,
   fun _ => false, fun _ => false⟩

set_option maxRecDepth 4000 in
/-- C4 counterexample: on a streaming forward whose upstream resets the
    connection (a transport error raised by the read) after 3 relayed
    body bytes, `handle_proxy` catches the error escaping `stream_mjpeg`
    and writes a full 502 block — status line, headers, and error body —
    into the already-started stream, after the bytes the client has
    received; the claim says the client receives exactly those bytes and
    the connection closes cleanly with no 502 mixed in. -/
theorem C4_counterexample :
    (handle_proxy ctxC4 "GET" "/stream.mjpeg"
        [("Cookie", "ProxyTarget=http%3A%2F%2F10.0.0.5%3A8080")] none).chunks =
      [Chunk.status 200 "OK",
       Chunk.header "Server" USER_AGENT,
       Chunk.header "Connection" "close",
       Chunk.header "Content-Type" "multipart/x-mixed-replace",
       Chunk.blank,
       Chunk.byteData [1, 2, 3],
       Chunk.status 502 "Bad Gateway",
       Chunk.header "Server" USER_AGENT,
       Chunk.header "Connection" "close",
       Chunk.header "Content-Type" "text/plain",
       Chunk.header "Set-Cookie" expired_proxy_cookie,
       Chunk.strData ("Content-Length: 45\r\n\r\n"),
       Chunk.strData ("MJPEG stream failed: Connection reset by peer")] ∧
    Chunk.status 502 "Bad Gateway" ∈
      ((handle_proxy ctxC4 "GET" "/stream.mjpeg"
        [("Cookie", "ProxyTarget=http%3A%2F%2F10.0.0.5%3A8080")] none).chunks.drop 6) := by
  exact ⟨rfl, by decide⟩

theorem streamLoop_clean (f g : Nat → Bool) (hf : ∀ n, f n = false) (hg : ∀ n, g n = false) :
    ∀ (bs : List (List Nat)), (∀ b ∈ bs, b ≠ []) →
      ∀ n, streamLoop f g (bs.map StreamEvent.chunk) n = (bs.map Chunk.byteData, none) := by
  intro bs
  induction bs with
  | nil => intro _ n; rfl
  | cons b t ih =>
    intro hne n
    simp only [List.map_cons]
    conv_lhs => rw [streamLoop.eq_def]
    dsimp only
    rw [if_neg (hne b (List.mem_cons_self b t)), hf n, hg n]
    rw [if_neg (by simp), if_neg (by simp)]
    rw [ih (fun x hx => hne x (List.mem_cons_of_mem b hx)) (n + 1)]

set_option maxRecDepth 4000 in
/-- C4 amended: on a streaming forward where the upstream accepts, its
    status line parses, and it then ends the stream by *closing* its
    side (every read yields a chunk and the stream then ends, rather
    than raising), with a healthy client, the client receives the
    relayed status line, the relayed headers (minus `Content-Length`,
    with `Connection: close` forced), the blank line, and exactly the
    upstream's body chunks — no 502 status line or error body is
    appended and no error escapes. An upstream reset that surfaces as a
    raised transport error instead triggers the appended 502 block of
    the counterexample. -/
theorem C4_stream_clean_eof_amended (ctx : Ctx) (path : String)
    (hdrs : List (String × String)) (c : String) (parsed : ParseResult) (rp : String)
    (host : String) (portOpt : Option Int) (rs : RemoteStream)
    (v0 codeStr r1 : String) (code : Int) (bs : List (List Nat))
    (hq : (splitOnceChar path '?').2 = none)
    (hres : (splitOnceChar path '?').1 ≠ "/reset")
    (hck : dictGet? (parse_cookies (dictGetD hdrs "Cookie" "")) COOKIE_NAME = some c)
    (hcne : c ≠ "")
    (hval : validate_target (unquote c) = some parsed)
    (hcp : combine_paths parsed ((splitOnceChar path '?').1) = Except.ok rp)
    (hmj : strEndsWith (pyLower rp) ".mjpeg" = true)
    (hhost : parsed.hostnameStr = some host)
    (hport : parsed.portE = .ok portOpt)
    (hstream : ctx.streamNet host (stream_remote_port parsed portOpt) rp = .ok rs)
    (hsl : rs.statusLine ≠ [])
    (hparts : pySplit (pyStrip (utf8DecodeIgnore rs.statusLine)) = [v0, codeStr, r1])
    (hcode : pyInt? codeStr = some code)
    (hevents : rs.events = bs.map StreamEvent.chunk)
    (hbs : ∀ b ∈ bs, b ≠ [])
    (hcl : ∀ n, ctx.isClosing n = false)
    (hdr : ∀ n, ctx.drainReset n = false) :
    handle_proxy ctx "GET" path hdrs none =
      ⟨Chunk.status code r1 ::
         send_basic_headers
           (dictSet (dictPop (readStreamHeaders rs.headerLines []) "Content-Length")
             "Connection" (HVal.str "close")) ++
         Chunk.blank :: bs.map Chunk.byteData,
       [], [(host, stream_remote_port parsed portOpt)], none⟩ := by
  rw [handle_proxy_get_no_new_target ctx "GET" path hdrs hq hres, hck]
  simp only [optTruthy, Option.getD_some]
  rw [if_pos (by simp [hcne]), hval]
  dsimp only
  have hloop := streamLoop_clean ctx.isClosing ctx.drainReset hcl hdr bs hbs 0
  have hstep : stream_mjpeg ctx parsed rp none =
      (Chunk.status code r1 ::
         send_basic_headers
           (dictSet (dictPop (readStreamHeaders rs.headerLines []) "Content-Length")
             "Connection" (HVal.str "close")) ++
         Chunk.blank :: bs.map Chunk.byteData,
       [(host, stream_remote_port parsed portOpt)], none) := by
    simp [stream_mjpeg, hhost, hport, hstream, hsl, hparts, hcode, hevents, hloop,
      build_response_status, joinWith, List.getD]
  simp [forward_section, hcp, hmj, hstep, build_response_status]

/-- Oracle for the C4 amended witness: the upstream streams two chunks
    and then closes cleanly. -/
def ctxC4w : Ctx :=
  ⟨fun _ _ => .error ⟨.osError, "no fetch"⟩,
   fun _ _ _ => .ok ⟨strBytes "HTTP/1.1 200 OK\r\n",
     [strBytes "Content-Type: multipart/x-mixed-replace\r\n", strBytes "Content-Length: 999\r\n"],
     [.chunk [1, 2, 3], .chunk [4, 5]]⟩,
   fun _ => false, fun _ => false⟩

set_option maxRecDepth 4000 in
/-- C4 amended witness: two chunks then upstream EOF — the client gets
    exactly those bytes, no 502, no error. -/
theorem C4_stream_clean_eof_amended_witness :
    handle_proxy ctxC4w "GET" "/stream.mjpeg"
        [("Cookie", "ProxyTarget=http%3A%2F%2F10.0.0.5%3A8080")] none =
      ⟨Chunk.status 200 "OK" ::
         send_basic_headers
           (dictSet (dictPop (readStreamHeaders
               [strBytes "Content-Type: multipart/x-mixed-replace\r\n",
                strBytes "Content-Length: 999\r\n"] []) "Content-Length")
             "Connection" (HVal.str "close")) ++
         Chunk.blank :: ([[1, 2, 3], [4, 5]] : List (List Nat)).map Chunk.byteData,
       [], [("10.0.0.5", 8080)], none⟩ :=
  C4_stream_clean_eof_amended ctxC4w "/stream.mjpeg"
    [("Cookie", "ProxyTarget=http%3A%2F%2F10.0.0.5%3A8080")]
    "http%3A%2F%2F10.0.0.5%3A8080" ⟨"http", "10.0.0.5:8080", "", "", "", ""⟩ "/stream.mjpeg"
    "10.0.0.5" (some 8080)
    ⟨strBytes "HTTP/1.1 200 OK\r\n",
     [strBytes "Content-Type: multipart/x-mixed-replace\r\n", strBytes "Content-Length: 999\r\n"],
     [.chunk [1, 2, 3], .chunk [4, 5]]⟩
    "HTTP/1.1" "200" "OK" 200 [[1, 2, 3], [4, 5]]
    rfl (by decide) rfl (by decide) rfl rfl rfl rfl rfl rfl (by decide) rfl rfl rfl
    (by decide) (fun n => rfl) (fun n => rfl)

end NomadProxy
